import Mathlib

set_option maxRecDepth 100000

/-!
Verification of the `es-credentials.py` provisioning script.

The script is embedded shallowly: every AWS call is modelled as an oracle
(a field of a client structure) returning `Except PyExn α`, and the script's
observable behaviour is an `Eff` record accumulating the list of provider
calls issued, the lines written to standard output, and the lines written
to standard error.  Python exceptions that the script does not catch are
modelled by the `Except.error` constructor propagating out of a function.

The policy-document serialization (`str(iam_policy).replace("'",'"')`,
lines 176-184 of the source) is modelled by an executable embedding of
Python's `repr` on the dict/list/str values that occur in the templates,
together with a character-for-character replacement of single quotes by
double quotes.  JSON well-formedness is settled by an executable JSON
parser covering the RFC 8259 grammar.
-/

/-! ### Characters and Python `repr`

Named characters, so that quote and brace characters never appear as
literals in the development. -/

def squote : Char := Char.ofNat 39

def dquote : Char := Char.ofNat 34

def bslash : Char := Char.ofNat 92

def tabC : Char := Char.ofNat 9

def nlC : Char := Char.ofNat 10

def crC : Char := Char.ofNat 13

def lbraceS : String := String.singleton (Char.ofNat 123)

def rbraceS : String := String.singleton (Char.ofNat 125)

/-- Lower-case hexadecimal digit, as printed by Python's `\xNN` escapes. -/
def hexDigitL (n : Nat) : Char :=
  if n < 10 then Char.ofNat (48 + n) else Char.ofNat (87 + n)

/-- Two lower-case hexadecimal digits. -/
def hex2 (n : Nat) : String := String.mk [hexDigitL (n / 16 % 16), hexDigitL (n % 16)]

/-- Concatenation of a list of strings. -/
def strConcat : List String → String
  | [] => ""
  | s :: ss => s ++ strConcat ss

/-- Python's `c in s` for a single character. -/
def containsChar (s : String) (c : Char) : Bool := s.data.any (fun x => x == c)

/-- One character of a Python string `repr`, with `q` the enclosing quote
character chosen for the string.  Mirrors CPython exactly for every code
point below 0x100: backslash and the enclosing quote are backslash-escaped,
tab/newline/carriage-return print as `\t`/`\n`/`\r`, and the remaining
non-printable Latin-1 code points — the other C0 controls, DEL (0x7F), the
C1 controls (0x80-0x9F), NBSP (0xA0) and SOFT HYPHEN (0xAD) — print as
`\xNN`.  Code points at or above 0x100 are kept literal, which matches
CPython for the printable ones; CPython also escapes the non-printable
ones among them (Unicode categories C* and Z* except space), which no
theorem below quantifies over — `safeChar` admits only printable ASCII. -/
def pyReprChar (q : Char) (c : Char) : String :=
  if c = bslash then "\\\\"
  else if c = q then String.mk [bslash, q]
  else if c = tabC then "\\t"
  else if c = nlC then "\\n"
  else if c = crC then "\\r"
  else if c.toNat < 32 ∨ (127 ≤ c.toNat ∧ c.toNat ≤ 160) ∨ c.toNat = 173 then
    "\\x" ++ hex2 c.toNat
  else String.singleton c

/-- Python `repr` of a string: single quotes by default, double quotes when
the string contains a single quote but no double quote. -/
def pyReprStr (s : String) : String :=
  let q := if containsChar s squote && !(containsChar s dquote) then dquote else squote
  String.singleton q ++ strConcat (s.data.map (pyReprChar q)) ++ String.singleton q

/-- Python's `s.replace(a, b)` for single-character `a` and `b`: replaces
every occurrence, character for character. -/
def replaceChars (a b : Char) (s : String) : String :=
  String.mk (s.data.map (fun c => if c = a then b else c))

/-- `pat.isPrefixOf cs` spelled out locally. -/
def leadsWith : List Char → List Char → Bool
  | [], _ => true
  | _ :: _, [] => false
  | p :: ps, c :: cs => p == c && leadsWith ps cs

/-- Auxiliary for `pyReplace`: fuel-driven replacement of every
non-overlapping occurrence of `pat` by `rep`, left to right. -/
def replaceListAux (pat rep : List Char) : Nat → List Char → List Char
  | _, [] => []
  | 0, cs => cs
  | fuel + 1, c :: cs =>
    if pat ≠ [] ∧ leadsWith pat (c :: cs) then
      rep ++ replaceListAux pat rep fuel (List.drop pat.length (c :: cs))
    else
      c :: replaceListAux pat rep fuel cs

/-- Python's `s.replace(pat, rep)` for a non-empty pattern. -/
def pyReplace (s pat rep : String) : String :=
  String.mk (replaceListAux pat.data rep.data s.data.length s.data)

/-! ### JSON-like values

The values that occur in the script are Python dicts, lists and strings;
the JSON grammar additionally has numbers, booleans and null, which the
parser below must accept.  A mutual inductive keeps all recursion
structural (hence kernel-reducible). -/

mutual

inductive JVal where
  | str : String → JVal
  | num : String → JVal
  | jbool : Bool → JVal
  | null : JVal
  | arr : JList → JVal
  | obj : JObj → JVal

inductive JList where
  | nil : JList
  | cons : JVal → JList → JList

inductive JObj where
  | nil : JObj
  | cons : String → JVal → JObj → JObj

end

/-- Build a `JList` from a list literal. -/
def jlist : List JVal → JList
  | [] => .nil
  | v :: vs => .cons v (jlist vs)

/-- Build a `JObj` from a list literal of key-value pairs. -/
def jobj : List (String × JVal) → JObj
  | [] => .nil
  | (k, v) :: kvs => .cons k v (jobj kvs)

mutual

/-- Python `str`/`repr` of a dict/list/str value: elements are `repr`-ed,
joined with `", "`, dict entries with `": "`.  The `num`, `jbool` and
`null` cases do not occur in the script's templates. -/
def pyRepr : JVal → String
  | .str s => pyReprStr s
  | .num s => s
  | .jbool b => if b then "True" else "False"
  | .null => "None"
  | .arr xs => "[" ++ pyReprList xs ++ "]"
  | .obj kvs => lbraceS ++ pyReprObj kvs ++ rbraceS

def pyReprList : JList → String
  | .nil => ""
  | .cons x .nil => pyRepr x
  | .cons x (.cons y ys) => pyRepr x ++ ", " ++ pyReprList (.cons y ys)

def pyReprObj : JObj → String
  | .nil => ""
  | .cons k v .nil => pyReprStr k ++ ": " ++ pyRepr v
  | .cons k v (.cons k2 v2 r) =>
    pyReprStr k ++ ": " ++ pyRepr v ++ ", " ++ pyReprObj (.cons k2 v2 r)

end

/-- One character of a standard JSON string serialization: `"` and `\` are
backslash-escaped, tab/newline/carriage-return print as `\t`/`\n`/`\r`, the
remaining C0 control characters as `\u00NN`. -/
def jsonEscapeChar (c : Char) : String :=
  if c = dquote then String.mk [bslash, dquote]
  else if c = bslash then "\\\\"
  else if c = tabC then "\\t"
  else if c = nlC then "\\n"
  else if c = crC then "\\r"
  else if c.toNat < 32 then "\\u00" ++ hex2 c.toNat
  else String.singleton c

/-- Standard JSON serialization of a string. -/
def jsonStrOf (s : String) : String :=
  String.singleton dquote ++ strConcat (s.data.map jsonEscapeChar) ++ String.singleton dquote

mutual

/-- Standard (python `json.dumps`-style, with `", "` and `": "` separators)
JSON serialization of a value. -/
def jsonDumps : JVal → String
  | .str s => jsonStrOf s
  | .num s => s
  | .jbool b => if b then "true" else "false"
  | .null => "null"
  | .arr xs => "[" ++ jsonDumpsList xs ++ "]"
  | .obj kvs => lbraceS ++ jsonDumpsObj kvs ++ rbraceS

def jsonDumpsList : JList → String
  | .nil => ""
  | .cons x .nil => jsonDumps x
  | .cons x (.cons y ys) => jsonDumps x ++ ", " ++ jsonDumpsList (.cons y ys)

def jsonDumpsObj : JObj → String
  | .nil => ""
  | .cons k v .nil => jsonStrOf k ++ ": " ++ jsonDumps v
  | .cons k v (.cons k2 v2 r) =>
    jsonStrOf k ++ ": " ++ jsonDumps v ++ ", " ++ jsonDumpsObj (.cons k2 v2 r)

end

/-- A character whose Python `repr` (in a single-quoted string) coincides,
after the script's global single-quote-to-double-quote replacement, with
its standard JSON escape: tab, newline, carriage return, or a printable
ASCII character (0x20-0x7E), and not a quote of either kind.  CPython
escapes every non-printable code point (also non-ASCII ones such as U+0085
or U+00A0, producing JSON-invalid `\xNN` escapes), so only this printable
ASCII core is admitted as safe. -/
def safeChar (c : Char) : Bool :=
  (c == tabC || c == nlC || c == crC || (decide (32 ≤ c.toNat) && decide (c.toNat ≤ 126)))
    && c != squote && c != dquote

/-- A string all of whose characters are `safeChar`. -/
def safeStr (s : String) : Bool := s.data.all safeChar

mutual

/-- All strings (keys and values) of the value are `safeStr`; `num` needs
its literal safe as well; booleans and null are rendered differently by
Python and JSON and so are never safe. -/
def safeVal : JVal → Bool
  | .str s => safeStr s
  | .num s => safeStr s
  | .jbool _ => false
  | .null => false
  | .arr xs => safeList xs
  | .obj kvs => safeObj kvs

def safeList : JList → Bool
  | .nil => true
  | .cons x xs => safeVal x && safeList xs

def safeObj : JObj → Bool
  | .nil => true
  | .cons k v kvs => safeStr k && safeVal v && safeObj kvs

end

/-! ### The IAM policy templates (source lines 43-116) -/

/-- First statement of every template: allow `s3:ListAllMyBuckets` on `*`. -/
def listAllBucketsStmt : JVal :=
  .obj (jobj [("Sid", .str "VisualEditor0"), ("Effect", .str "Allow"),
    ("Action", .str "s3:ListAllMyBuckets"), ("Resource", .str "*")])

/-- The `"r"` template. -/
def iamPolicyR : JVal :=
  .obj (jobj [("Version", .str "2012-10-17"),
    ("Statement", .arr (jlist [listAllBucketsStmt,
      .obj (jobj [("Sid", .str "VisualEditor1"), ("Effect", .str "Allow"),
        ("Action", .arr (jlist [.str "s3:ListBucket", .str "s3:GetObject",
          .str "s3:GetObjectAcl", .str "s3:GetObjectTagging"])),
        ("Resource", .arr (jlist []))])]))])

/-- The `"w"` template. -/
def iamPolicyW : JVal :=
  .obj (jobj [("Version", .str "2012-10-17"),
    ("Statement", .arr (jlist [listAllBucketsStmt,
      .obj (jobj [("Sid", .str "VisualEditor1"), ("Effect", .str "Allow"),
        ("Action", .arr (jlist [.str "s3:ListBucket", .str "s3:PutObject",
          .str "s3:PutObjectAcl", .str "s3:PutObjectTagging"])),
        ("Resource", .arr (jlist []))])]))])

/-- The `"rw"` template. -/
def iamPolicyRW : JVal :=
  .obj (jobj [("Version", .str "2012-10-17"),
    ("Statement", .arr (jlist [listAllBucketsStmt,
      .obj (jobj [("Sid", .str "VisualEditor1"), ("Effect", .str "Allow"),
        ("Action", .arr (jlist [.str "s3:ListBucket", .str "s3:GetObject",
          .str "s3:GetObjectAcl", .str "s3:GetObjectTagging", .str "s3:PutObject",
          .str "s3:PutObjectAcl", .str "s3:PutObjectTagging"])),
        ("Resource", .arr (jlist []))])]))])

/-- The `iam_policies` dict of the source, as an association list keyed by
access mode. -/
def iam_policies : List (String × JVal) :=
  [("r", iamPolicyR), ("w", iamPolicyW), ("rw", iamPolicyRW)]

/-! ### Access into and update of the template values -/

def jobjLookup : JObj → String → Option JVal
  | .nil, _ => none
  | .cons k v r, key => if k = key then some v else jobjLookup r key

/-- Replace the value stored at `key` (Python dict assignment `d[key] = v`;
keys are unique in the templates). -/
def jobjSet : JObj → String → JVal → JObj
  | .nil, _, _ => .nil
  | .cons k x r, key, v =>
    if k = key then .cons k v (jobjSet r key v) else .cons k x (jobjSet r key v)

/-- Apply `f` to the value stored at `key`. -/
def jobjModify (f : JVal → JVal) : JObj → String → JObj
  | .nil, _ => .nil
  | .cons k x r, key =>
    if k = key then .cons k (f x) (jobjModify f r key) else .cons k x (jobjModify f r key)

def jlistGet : JList → Nat → JVal
  | .nil, _ => .null
  | .cons x _, 0 => x
  | .cons _ xs, n + 1 => jlistGet xs n

def jlistSet : JList → Nat → JVal → JList
  | .nil, _, _ => .nil
  | .cons _ xs, 0, v => .cons v xs
  | .cons x xs, n + 1, v => .cons x (jlistSet xs n v)

def jlistLength : JList → Nat
  | .nil => 0
  | .cons _ xs => jlistLength xs + 1

/-- The source's `iam_policy["Statement"][1]["Resource"] = res`
(lines 177-180): rewrite the `Resource` entry of the second statement. -/
def setStatement1Resource (doc res : JVal) : JVal :=
  match doc with
  | .obj kvs => .obj (jobjModify (fun st =>
      match st with
      | .arr stmts => .arr (jlistSet stmts 1
          (match jlistGet stmts 1 with
           | .obj skvs => .obj (jobjSet skvs "Resource" res)
           | v => v))
      | v => v) kvs "Statement")
  | v => v

/-- The two resource ARNs injected by the source, in the source's order:
`arn:aws:s3:::<bucket>/*` first, then `arn:aws:s3:::<bucket>`. -/
def resourceArns (bucket : String) : JVal :=
  .arr (jlist [.str ("arn:aws:s3:::" ++ bucket ++ "/*"),
    .str ("arn:aws:s3:::" ++ bucket)])

/-- The policy document value the script builds for a given access mode and
bucket: the template for the mode with the two resource ARNs injected into
its second statement (`none` when the mode is not a key of `iam_policies`). -/
def generatedPolicy (access bucket : String) : Option JVal :=
  (iam_policies.lookup access).map (fun tmpl => setStatement1Resource tmpl (resourceArns bucket))

/-- The `PolicyDocument` string the script sends:
`str(iam_policy).replace("'", '"')` (line 183). -/
def policyDocumentString (doc : JVal) : String :=
  replaceChars squote dquote (pyRepr doc)

/-- Field `key` of statement number `i` of a policy document. -/
def statementField (d : JVal) (i : Nat) (key : String) : Option JVal :=
  match d with
  | .obj kvs =>
    match jobjLookup kvs "Statement" with
    | some (.arr stmts) =>
      match jlistGet stmts i with
      | .obj skvs => jobjLookup skvs key
      | _ => none
    | _ => none
  | _ => none

/-! ### The provider model

Every AWS API call is an oracle returning `Except PyExn α`.  `PyExn`
distinguishes botocore `ClientError` (whose `e.response["Error"]["Code"]`
the script inspects) from any other exception; `render e` stands for
Python's `"{}".format(e)`. -/

inductive PyExn where
  | clientError (code : String) (msg : String)
  | other (msg : String)

/-- Python's string rendering of the exception, as written by
`sys.stderr.write("{}\n".format(e))`. -/
def PyExn.render : PyExn → String
  | .clientError _ m => m
  | .other m => m

/-- The `PublicAccessBlockConfiguration` argument. -/
structure PABConfig where
  blockPublicAcls : Bool
  ignorePublicAcls : Bool
  blockPublicPolicy : Bool
  restrictPublicBuckets : Bool

/-- One provider call, with the arguments the script passes. -/
inductive Call where
  | getCallerIdentity
  | headBucket (bucket : String)
  | createBucket (acl : String) (bucket : String) (locationConstraint : Option String)
  | putPublicAccessBlock (bucket : String) (cfg : PABConfig)
  | listPolicies (scope : String)
  | createPolicy (policyName : String) (policyDocument : String)
  | createUser (userName : Option String) (tags : List (String × String))
  | attachUserPolicy (userName : Option String) (policyArn : String)
  | createAccessKey (userName : Option String)

/-- Observable effects of a run: provider calls issued, lines printed to
standard output, messages written to standard error (each element is the
payload of one write, without the trailing newline). -/
structure Eff where
  calls : List Call
  stdoutLines : List String
  stderrLines : List String

def Eff.empty : Eff := ⟨[], [], []⟩

/-- Record that a provider call was issued. -/
def Eff.call (st : Eff) (c : Call) : Eff := { st with calls := st.calls ++ [c] }

/-- `sys.stderr.write(s + "\n")`. -/
def Eff.err (st : Eff) (s : String) : Eff := { st with stderrLines := st.stderrLines ++ [s] }

/-- `print(s)`. -/
def Eff.out (st : Eff) (s : String) : Eff := { st with stdoutLines := st.stdoutLines ++ [s] }

/-- `create_bucket` / `create_policy` responses carry the HTTP status code
the script checks and the `str()` rendering the script writes on a
non-200 status. -/
structure CreateBucketResp where
  httpStatusCode : Nat
  rendered : String

structure PolicyEntry where
  policyName : String
  arn : String

structure CreatePolicyResp where
  httpStatusCode : Nat
  arn : String
  rendered : String

structure AccessKeyResp where
  accessKeyId : String
  secretAccessKey : String

structure IdentityResp where
  account : String
  arn : String

structure S3Client where
  head_bucket : String → Except PyExn Unit
  create_bucket : String → String → Option String → Except PyExn CreateBucketResp
  put_public_access_block : String → PABConfig → Except PyExn Unit

structure IAMClient where
  list_policies : String → Except PyExn (List PolicyEntry)
  create_policy : String → String → Except PyExn CreatePolicyResp
  create_user : Option String → List (String × String) → Except PyExn Unit
  attach_user_policy : Option String → String → Except PyExn Unit
  create_access_key : Option String → Except PyExn AccessKeyResp

structure STSClient where
  get_caller_identity : Except PyExn IdentityResp

/-- The parsed command-line arguments: `--bucket` and `--policy` are
required, `--access` and `--user` are optional. -/
structure Args where
  bucket : String
  policy : String
  access : Option String
  user : Option String

/-! ### The script (source lines 128-263) -/

/-- `confirm_or_create_bucket` (lines 128-163).  The outer `try` catches
only `ClientError`, so any other exception from `head_bucket` propagates;
the inner `try` (around creation and the public-access block) catches
every exception.  When the region is `us-east-1` no `LocationConstraint`
is passed (lines 134-147); the ACL is always `'private'`. -/
def confirm_or_create_bucket (aws_region : String) (s3 : S3Client) (bucket_name : String)
    (st : Eff) : Except PyExn Eff :=
  let st := st.call (.headBucket bucket_name)
  match s3.head_bucket bucket_name with
  | .ok _ => .ok st
  | .error (.other m) => .error (.other m)
  | .error (.clientError code msg) =>
    if code = "404" then
      let loc : Option String := if aws_region = "us-east-1" then none else some aws_region
      let st := st.call (.createBucket "private" bucket_name loc)
      match s3.create_bucket "private" bucket_name loc with
      | .error e => .ok (st.err e.render)
      | .ok resp =>
        -- `response[...]["HTTPStatusCode"] is not 200`: for CPython's cached
        -- small integers `is not` coincides with `!=` here (line 148).
        let st := if resp.httpStatusCode ≠ 200 then
            (st.err resp.rendered).err "Error: bucket creation failed." else st
        let cfg : PABConfig := ⟨true, true, true, true⟩
        let st := st.call (.putPublicAccessBlock bucket_name cfg)
        match s3.put_public_access_block bucket_name cfg with
        | .error e => .ok (st.err e.render)
        | .ok _ => .ok st
    else
      .ok (st.err (PyExn.clientError code msg).render)

/-- The linear search of lines 170-172: the loop keeps overwriting `arn`,
so the last entry whose name matches wins. -/
def arnSearch (policies : List PolicyEntry) (name : String) : Option String :=
  policies.foldl (fun acc p => if p.policyName = name then some p.arn else acc) none

/-- `confirm_or_create_policy` (lines 165-193).  The whole body is inside
`try: ... except Exception`, so the function never raises; it returns the
ARN (or `None`) together with the effects. -/
def confirm_or_create_policy (iam : IAMClient) (args : Args) (st : Eff) :
    Option String × Eff :=
  let st := st.call (.listPolicies "Local")
  match iam.list_policies "Local" with
  | .error e => (none, st.err e.render)
  | .ok policies =>
    match arnSearch policies args.policy with
    | some arn => (some arn, st)
    | none =>
      match args.access.bind (fun a => generatedPolicy a args.bucket) with
      | some doc =>
        let st := st.call (.createPolicy args.policy (policyDocumentString doc))
        match iam.create_policy args.policy (policyDocumentString doc) with
        | .error e => (none, st.err e.render)
        | .ok resp =>
          let st := if resp.httpStatusCode ≠ 200 then
              (st.err resp.rendered).err "Error: policy creation failed." else st
          (some resp.arn, st)
      | none => (none, st.err "Error: '--access' must be one of r, w, or rw.")

/-- The diagnostic line of lines 211-214, with the account prefix stripped
from the caller ARN by `str.replace`. -/
def identityLine (resp : IdentityResp) : String :=
  "Using account #" ++ resp.account ++ ", \"" ++
    pyReplace resp.arn ("arn:aws:iam::" ++ resp.account ++ ":") "" ++ "\"."

/-- The identity check (lines 209-214).  It is not wrapped in any
`try`/`except`: a failing `get_caller_identity` propagates out of `main`. -/
def identityStep (sts : STSClient) (st : Eff) : Except PyExn Eff :=
  let st := st.call .getCallerIdentity
  match sts.get_caller_identity with
  | .error e => .error e
  | .ok resp => .ok (st.err (identityLine resp))

/-- The tag list passed to `create_user` (lines 226-231). -/
def userTags : List (String × String) := [("created-by", "govready:es-credentials")]

/-- The user-creation block (lines 222-237): only `ClientError` is caught;
an `EntityAlreadyExists` code is ignored, any other code is written to
standard error. -/
def userStep (iam : IAMClient) (user : Option String) (st : Eff) : Except PyExn Eff :=
  let st := st.call (.createUser user userTags)
  match iam.create_user user userTags with
  | .ok _ => .ok st
  | .error (.clientError code msg) =>
    if code = "EntityAlreadyExists" then .ok st
    else .ok (st.err (PyExn.clientError code msg).render)
  | .error (.other m) => .error (.other m)

/-- The policy-attachment block (lines 239-249): with a `None` ARN the call
is skipped and an error written; otherwise only `ClientError` is caught. -/
def attachStep (iam : IAMClient) (user : Option String) (arn : Option String)
    (st : Eff) : Except PyExn Eff :=
  match arn with
  | none => .ok (st.err "ERROR: Can't attach policy: no policy exists.")
  | some a =>
    let st := st.call (.attachUserPolicy user a)
    match iam.attach_user_policy user a with
    | .ok _ => .ok st
    | .error (.clientError code msg) => .ok (st.err (PyExn.clientError code msg).render)
    | .error (.other m) => .error (.other m)

/-- The access-key block (lines 251-260): on success the comment line and
the two `export` lines go to standard output; only `ClientError` is caught. -/
def keyStep (iam : IAMClient) (user : Option String) (st : Eff) : Except PyExn Eff :=
  let st := st.call (.createAccessKey user)
  match iam.create_access_key user with
  | .ok k =>
    .ok (((st.out "# for Windows, use 'set' instead of 'export'").out
      ("export AWS_ACCESS_KEY_ID=" ++ k.accessKeyId)).out
      ("export AWS_SECRET_ACCESS_KEY=" ++ k.secretAccessKey))
  | .error (.clientError code msg) => .ok (st.err (PyExn.clientError code msg).render)
  | .error (.other m) => .error (.other m)

/-- `aws_region = 'us-east-1'` (line 204). -/
def aws_region_main : String := "us-east-1"

/-- The source's `main` (lines 195-260; Lean reserves the name `main`):
the five blocks in sequence, threading the effects.  `main` has no
`return` statement, so on a normal exit it returns Python's `None`,
modelled as `(none : Option Int)`. -/
def main' (args : Args) (sts : STSClient) (s3 : S3Client) (iam : IAMClient) :
    Except PyExn (Option Int × Eff) :=
  match identityStep sts Eff.empty with
  | .error e => .error e
  | .ok st =>
    match confirm_or_create_bucket aws_region_main s3 args.bucket st with
    | .error e => .error e
    | .ok st =>
      match confirm_or_create_policy iam args st with
      | (arn, st) =>
        match userStep iam args.user st with
        | .error e => .error e
        | .ok st =>
          match attachStep iam args.user arn st with
          | .error e => .error e
          | .ok st =>
            match keyStep iam args.user st with
            | .error e => .error e
            | .ok st => .ok (none, st)

/-- Python's `exit(v)` for `v = main()`: `exit(None)` exits with status 0,
`exit(n)` with status `n` (line 263). -/
def pyExit : Option Int → Int
  | none => 0
  | some n => n

/-! ### An executable JSON parser (RFC 8259)

Used to settle well-formedness of the policy-document strings.  Fuel-driven
so that all recursion is structural; the fuel passed at top level
(`length + 1`) is ample for any input, since every nesting level consumes
at least one character. -/

def isWsChar (c : Char) : Bool := c == ' ' || c == tabC || c == nlC || c == crC

def skipWs : List Char → List Char
  | [] => []
  | c :: cs => if isWsChar c then skipWs cs else c :: cs

def isDigitChar (c : Char) : Bool := decide (48 ≤ c.toNat) && decide (c.toNat ≤ 57)

def isHexChar (c : Char) : Bool :=
  isDigitChar c || (decide (97 ≤ c.toNat) && decide (c.toNat ≤ 102))
    || (decide (65 ≤ c.toNat) && decide (c.toNat ≤ 70))

def hexCharVal (c : Char) : Nat :=
  if isDigitChar c then c.toNat - 48
  else if decide (97 ≤ c.toNat) then c.toNat - 87
  else c.toNat - 55

/-- The single-character escapes of the JSON grammar. -/
def jsonUnescape (c : Char) : Option Char :=
  if c = dquote then some dquote
  else if c = bslash then some bslash
  else if c = '/' then some '/'
  else if c = 'b' then some (Char.ofNat 8)
  else if c = 'f' then some (Char.ofNat 12)
  else if c = 'n' then some nlC
  else if c = 'r' then some crC
  else if c = 't' then some tabC
  else none

/-- Body of a JSON string, after the opening quote: returns the decoded
characters and the remainder after the closing quote.  Raw control
characters are rejected, escapes are `\"`, `\\`, `\/`, `\b`, `\f`, `\n`,
`\r`, `\t` and `\uXXXX`. -/
def parseStrBody : Nat → List Char → Option (List Char × List Char)
  | 0, _ => none
  | _, [] => none
  | fuel + 1, c :: cs =>
    if c = dquote then some ([], cs)
    else if c = bslash then
      match cs with
      | [] => none
      | e :: cs2 =>
        if e = 'u' then
          match cs2 with
          | h1 :: h2 :: h3 :: h4 :: cs3 =>
            if isHexChar h1 && isHexChar h2 && isHexChar h3 && isHexChar h4 then
              (parseStrBody fuel cs3).map (fun r =>
                (Char.ofNat (((hexCharVal h1 * 16 + hexCharVal h2) * 16 + hexCharVal h3) * 16
                  + hexCharVal h4) :: r.1, r.2))
            else none
          | _ => none
        else
          match jsonUnescape e with
          | some d => (parseStrBody fuel cs2).map (fun r => (d :: r.1, r.2))
          | none => none
    else if c.toNat < 32 then none
    else (parseStrBody fuel cs).map (fun r => (c :: r.1, r.2))

def takeDigits : List Char → List Char × List Char
  | [] => ([], [])
  | c :: cs =>
    if isDigitChar c then
      let r := takeDigits cs
      (c :: r.1, r.2)
    else ([], c :: cs)

/-- `int` part of a JSON number: `0` or a nonzero digit followed by digits. -/
def parseIntPart : List Char → Option (List Char × List Char)
  | [] => none
  | c :: cs =>
    if c = '0' then some ([c], cs)
    else if isDigitChar c then
      let r := takeDigits cs
      some (c :: r.1, r.2)
    else none

/-- Optional `frac` part. -/
def parseFracPart : List Char → Option (List Char × List Char)
  | c :: cs =>
    if c = '.' then
      match takeDigits cs with
      | ([], _) => none
      | (d, r) => some ('.' :: d, r)
    else some ([], c :: cs)
  | [] => some ([], [])

/-- Optional `exp` part. -/
def parseExpPart : List Char → Option (List Char × List Char)
  | c :: cs =>
    if c = 'e' ∨ c = 'E' then
      let sr : List Char × List Char :=
        match cs with
        | s :: rest => if s = '+' ∨ s = '-' then ([s], rest) else ([], s :: rest)
        | [] => ([], [])
      match takeDigits sr.2 with
      | ([], _) => none
      | (d, r) => some (c :: (sr.1 ++ d), r)
    else some ([], c :: cs)
  | [] => some ([], [])

/-- A JSON number, returned as its literal text. -/
def parseNumber (cs : List Char) : Option (List Char × List Char) :=
  let nr : List Char × List Char :=
    match cs with
    | c :: rest => if c = '-' then (['-'], rest) else ([], cs)
    | [] => ([], [])
  match parseIntPart nr.2 with
  | none => none
  | some (ip, cs2) =>
    match parseFracPart cs2 with
    | none => none
    | some (fp, cs3) =>
      match parseExpPart cs3 with
      | none => none
      | some (ep, cs4) => some (nr.1 ++ ip ++ fp ++ ep, cs4)

mutual

/-- A JSON value, leading whitespace allowed. -/
def parseVal : Nat → List Char → Option (JVal × List Char)
  | 0, _ => none
  | fuel + 1, cs =>
    match skipWs cs with
    | [] => none
    | c :: cs2 =>
      if c = dquote then
        (parseStrBody (fuel + 1) cs2).map (fun r => (JVal.str (String.mk r.1), r.2))
      else if c = Char.ofNat 123 then
        match skipWs cs2 with
        | c2 :: cs3 =>
          if c2 = Char.ofNat 125 then some (.obj .nil, cs3)
          else (parseMembers fuel (c2 :: cs3)).map (fun r => (JVal.obj r.1, r.2))
        | [] => none
      else if c = '[' then
        match skipWs cs2 with
        | c2 :: cs3 =>
          if c2 = ']' then some (.arr .nil, cs3)
          else (parseItems fuel (c2 :: cs3)).map (fun r => (JVal.arr r.1, r.2))
        | [] => none
      else if c = 't' then
        match cs2 with
        | 'r' :: 'u' :: 'e' :: r => some (.jbool true, r)
        | _ => none
      else if c = 'f' then
        match cs2 with
        | 'a' :: 'l' :: 's' :: 'e' :: r => some (.jbool false, r)
        | _ => none
      else if c = 'n' then
        match cs2 with
        | 'u' :: 'l' :: 'l' :: r => some (.null, r)
        | _ => none
      else if c = '-' || isDigitChar c then
        (parseNumber (c :: cs2)).map (fun r => (JVal.num (String.mk r.1), r.2))
      else none

/-- Non-empty member list of a JSON object, up to (and consuming) the
closing brace. -/
def parseMembers : Nat → List Char → Option (JObj × List Char)
  | 0, _ => none
  | fuel + 1, cs =>
    match skipWs cs with
    | c :: cs2 =>
      if c = dquote then
        match parseStrBody (fuel + 1) cs2 with
        | some (k, r1) =>
          match skipWs r1 with
          | c2 :: r2 =>
            if c2 = ':' then
              match parseVal fuel r2 with
              | some (v, r3) =>
                match skipWs r3 with
                | c3 :: r4 =>
                  if c3 = ',' then
                    (parseMembers fuel r4).map (fun r => (JObj.cons (String.mk k) v r.1, r.2))
                  else if c3 = Char.ofNat 125 then
                    some (JObj.cons (String.mk k) v .nil, r4)
                  else none
                | [] => none
              | none => none
            else none
          | [] => none
        | none => none
      else none
    | [] => none

/-- Non-empty element list of a JSON array, up to (and consuming) the
closing bracket. -/
def parseItems : Nat → List Char → Option (JList × List Char)
  | 0, _ => none
  | fuel + 1, cs =>
    match parseVal fuel cs with
    | some (v, r1) =>
      match skipWs r1 with
      | c :: r2 =>
        if c = ',' then
          (parseItems fuel r2).map (fun r => (JList.cons v r.1, r.2))
        else if c = ']' then
          some (JList.cons v .nil, r2)
        else none
      | [] => none
    | none => none

end

/-- Parse a complete JSON text: one value, with only whitespace around it. -/
def parseJson (s : String) : Option JVal :=
  match parseVal (s.length + 1) s.data with
  | some (v, rest) => if skipWs rest = [] then some v else none
  | none => none

/-! ### Concrete provider instances (used by the witnesses) -/

def identOkResp : IdentityResp := ⟨"123456789012", "arn:aws:iam::123456789012:user/admin"⟩

def stsOk : STSClient := ⟨.ok identOkResp⟩

def stsDenied : STSClient :=
  ⟨.error (.clientError "AccessDenied"
    "An error occurred (AccessDenied) when calling the GetCallerIdentity operation")⟩

def s3AllOk : S3Client :=
  ⟨fun _ => .ok (), fun _ _ _ => .ok ⟨200, "create-bucket-response"⟩, fun _ _ => .ok ()⟩

def s3Missing : S3Client :=
  { s3AllOk with head_bucket := fun _ => .error (.clientError "404" "Not Found") }

def s3Forbidden : S3Client :=
  { s3AllOk with head_bucket := fun _ => .error (.clientError "403" "Forbidden") }

def iamEmptyOk : IAMClient :=
  ⟨fun _ => .ok [],
   fun n _ => .ok ⟨200, "arn:aws:iam::123456789012:policy/" ++ n, "create-policy-response"⟩,
   fun _ _ => .ok (),
   fun _ _ => .ok (),
   fun _ => .ok ⟨"AKIAEXAMPLEKEY", "wJalrXUtnFEMIexampleSecret"⟩⟩

def existingPolicy : PolicyEntry :=
  ⟨"es-policy", "arn:aws:iam::123456789012:policy/es-policy"⟩

def iamFound : IAMClient :=
  { iamEmptyOk with list_policies := fun _ => .ok [existingPolicy] }

def userExistsErr : PyExn :=
  PyExn.clientError "EntityAlreadyExists" "User with name es-user already exists."

def iamUserExists : IAMClient :=
  { iamFound with create_user := fun _ _ => Except.error userExistsErr }

def argsR : Args := ⟨"evidence-bucket", "es-policy", some "r", some "es-user"⟩

def argsBadAccess : Args := ⟨"evidence-bucket", "es-policy", some "x", some "es-user"⟩

/-- A bucket name containing no quote character but a BEL control
character: Python renders it as the escape `\x07`, which is not part of the
JSON grammar. -/
def belBucket : String := String.mk [Char.ofNat 7]

/-- A bucket name consisting of the NO-BREAK SPACE (U+00A0): no quote, no
DEL, not a C0 control character, yet CPython's `repr` renders it as the
escape `\xa0`, which is not part of the JSON grammar. -/
def nbspBucket : String := String.mk [Char.ofNat 160]

/-- An IAM client whose `create_policy`, `create_user` and
`create_access_key` calls all fail with client errors: every one of these
failures is caught by the script and written to standard error. -/
def iamFailing : IAMClient :=
  ⟨fun _ => .ok [],
   fun _ _ => Except.error
     (PyExn.clientError "MalformedPolicyDocument" "Syntax errors in policy."),
   fun _ _ => Except.error
     (PyExn.clientError "LimitExceeded" "Cannot exceed quota for UsersPerAccount."),
   fun _ _ => .ok (),
   fun _ => Except.error
     (PyExn.clientError "AccessDeniedException" "Not authorized to create access keys.")⟩

/-! ### Helper lemmas: the linear policy search -/

theorem foldlArnAux (q : String) (l : List PolicyEntry) (acc : Option String)
    (h : ∀ p ∈ l, p.policyName ≠ q) :
    l.foldl (fun a p => if p.policyName = q then some p.arn else a) acc = acc := by
  induction l generalizing acc with
  | nil => rfl
  | cons p ps ih =>
    have hp := h p (List.mem_cons_self p ps)
    simp only [List.foldl_cons, if_neg hp]
    exact ih acc (fun x hx => h x (List.mem_cons_of_mem _ hx))

theorem arnSearch_eq_none (q : String) (l : List PolicyEntry)
    (h : ∀ p ∈ l, p.policyName ≠ q) : arnSearch l q = none :=
  foldlArnAux q l none h

theorem foldlArnFind (q : String) (l : List PolicyEntry) :
    ∀ acc, (∃ p ∈ l, p.policyName = q) →
      ∃ p ∈ l, p.policyName = q ∧
        l.foldl (fun a p => if p.policyName = q then some p.arn else a) acc = some p.arn := by
  induction l with
  | nil => intro acc h; simp at h
  | cons x xs ih =>
    intro acc hex
    by_cases hxs : ∃ p ∈ xs, p.policyName = q
    · obtain ⟨p, hp, hq, heq⟩ := ih _ hxs
      exact ⟨p, List.mem_cons_of_mem _ hp, hq, by simp only [List.foldl_cons]; exact heq⟩
    · have hx : x.policyName = q := by
        obtain ⟨p, hp, hq⟩ := hex
        rcases List.mem_cons.mp hp with h1 | h2
        · subst h1; exact hq
        · exact absurd ⟨p, h2, hq⟩ hxs
      refine ⟨x, List.mem_cons_self x xs, hx, ?_⟩
      simp only [List.foldl_cons, if_pos hx]
      exact foldlArnAux q xs _ (fun p hp hq => hxs ⟨p, hp, hq⟩)

theorem arnSearch_finds (q : String) (l : List PolicyEntry)
    (hex : ∃ p ∈ l, p.policyName = q) :
    ∃ p ∈ l, p.policyName = q ∧ arnSearch l q = some p.arn :=
  foldlArnFind q l none hex

/-! ### Helper lemmas: effect bookkeeping of the individual blocks -/

theorem identityStep_shape (sts : STSClient) (st st' : Eff)
    (h : identityStep sts st = .ok st') :
    ∃ le, st' = ⟨st.calls ++ [Call.getCallerIdentity], st.stdoutLines, st.stderrLines ++ le⟩ := by
  cases hr : sts.get_caller_identity with
  | error e => simp [identityStep, hr] at h
  | ok resp =>
    simp [identityStep, hr] at h
    exact ⟨[identityLine resp], by simp [← h, Eff.call, Eff.err]⟩

theorem userStep_shape (iam : IAMClient) (u : Option String) (st st' : Eff)
    (h : userStep iam u st = .ok st') :
    ∃ le, st' = ⟨st.calls ++ [Call.createUser u userTags], st.stdoutLines, st.stderrLines ++ le⟩ := by
  cases hr : iam.create_user u userTags with
  | ok v =>
    simp [userStep, hr] at h
    exact ⟨[], by simp [← h, Eff.call]⟩
  | error e =>
    cases e with
    | clientError code msg =>
      by_cases hc : code = "EntityAlreadyExists"
      · subst hc
        simp [userStep, hr] at h
        exact ⟨[], by simp [← h, Eff.call]⟩
      · simp [userStep, hr, hc] at h
        exact ⟨[(PyExn.clientError code msg).render], by simp [← h, Eff.call, Eff.err]⟩
    | other m => simp [userStep, hr] at h

theorem attachStep_none_shape (iam : IAMClient) (u : Option String) (st st' : Eff)
    (h : attachStep iam u none st = .ok st') :
    st' = st.err "ERROR: Can't attach policy: no policy exists." := by
  simp [attachStep] at h
  exact h.symm

theorem attachStep_shape (iam : IAMClient) (u : Option String) (arn : Option String)
    (st st' : Eff) (h : attachStep iam u arn st = .ok st') :
    ∃ lc le, st' = ⟨st.calls ++ lc, st.stdoutLines, st.stderrLines ++ le⟩ ∧
      ∀ c ∈ lc, ∃ a, c = Call.attachUserPolicy u a := by
  cases arn with
  | none =>
    rw [attachStep_none_shape iam u st st' h]
    exact ⟨[], ["ERROR: Can't attach policy: no policy exists."], by simp [Eff.err], by simp⟩
  | some a =>
    cases hr : iam.attach_user_policy u a with
    | ok v =>
      simp [attachStep, hr] at h
      exact ⟨[Call.attachUserPolicy u a], [], by simp [← h, Eff.call], by simp⟩
    | error e =>
      cases e with
      | clientError code msg =>
        simp [attachStep, hr] at h
        exact ⟨[Call.attachUserPolicy u a], [(PyExn.clientError code msg).render],
          by simp [← h, Eff.call, Eff.err], by simp⟩
      | other m => simp [attachStep, hr] at h

theorem keyStep_shape (iam : IAMClient) (u : Option String) (st st' : Eff)
    (h : keyStep iam u st = .ok st') :
    ∃ lo le, st' = ⟨st.calls ++ [Call.createAccessKey u], st.stdoutLines ++ lo, st.stderrLines ++ le⟩ ∧
      (∀ k, iam.create_access_key u = .ok k →
        lo = ["# for Windows, use 'set' instead of 'export'",
          "export AWS_ACCESS_KEY_ID=" ++ k.accessKeyId,
          "export AWS_SECRET_ACCESS_KEY=" ++ k.secretAccessKey]) ∧
      (∀ e, iam.create_access_key u = .error e → lo = []) := by
  cases hr : iam.create_access_key u with
  | ok k =>
    simp [keyStep, hr] at h
    refine ⟨["# for Windows, use 'set' instead of 'export'",
      "export AWS_ACCESS_KEY_ID=" ++ k.accessKeyId,
      "export AWS_SECRET_ACCESS_KEY=" ++ k.secretAccessKey], [],
      by simp [← h, Eff.call, Eff.out], fun k2 hk2 => ?_, fun e he => ?_⟩
    · cases hk2; rfl
    · cases he
  | error e =>
    cases e with
    | clientError code msg =>
      simp [keyStep, hr] at h
      refine ⟨[], [(PyExn.clientError code msg).render],
        by simp [← h, Eff.call, Eff.err], fun k2 hk2 => ?_, fun _ _ => rfl⟩
      cases hk2
    | other m => simp [keyStep, hr] at h

theorem bucketStep_shape (r : String) (s3 : S3Client) (b : String) (st st' : Eff)
    (h : confirm_or_create_bucket r s3 b st = .ok st') :
    ∃ lc le, st' = ⟨st.calls ++ lc, st.stdoutLines, st.stderrLines ++ le⟩ ∧
      ∀ c ∈ lc, c = Call.headBucket b ∨ (∃ loc, c = Call.createBucket "private" b loc) ∨
        ∃ cfg, c = Call.putPublicAccessBlock b cfg := by
  cases hh : s3.head_bucket b with
  | ok v =>
    simp [confirm_or_create_bucket, hh] at h
    exact ⟨[Call.headBucket b], [], by simp [← h, Eff.call], by simp⟩
  | error e =>
    cases e with
    | other m => simp [confirm_or_create_bucket, hh] at h
    | clientError code msg =>
      by_cases hc : code = "404"
      · subst hc
        cases hcr : s3.create_bucket "private" b (if r = "us-east-1" then none else some r) with
        | error e2 =>
          simp [confirm_or_create_bucket, hh, hcr] at h
          refine ⟨[Call.headBucket b,
            Call.createBucket "private" b (if r = "us-east-1" then none else some r)],
            [e2.render], by simp [← h, Eff.call, Eff.err], ?_⟩
          simp
        | ok resp =>
          by_cases hs : resp.httpStatusCode = 200
          · cases hp : s3.put_public_access_block b ⟨true, true, true, true⟩ with
            | ok v2 =>
              simp [confirm_or_create_bucket, hh, hcr, hs, hp] at h
              refine ⟨[Call.headBucket b,
                Call.createBucket "private" b (if r = "us-east-1" then none else some r),
                Call.putPublicAccessBlock b ⟨true, true, true, true⟩], [],
                by simp [← h, Eff.call], ?_⟩
              simp
            | error e3 =>
              simp [confirm_or_create_bucket, hh, hcr, hs, hp] at h
              refine ⟨[Call.headBucket b,
                Call.createBucket "private" b (if r = "us-east-1" then none else some r),
                Call.putPublicAccessBlock b ⟨true, true, true, true⟩], [e3.render],
                by simp [← h, Eff.call, Eff.err], ?_⟩
              simp
          · cases hp : s3.put_public_access_block b ⟨true, true, true, true⟩ with
            | ok v2 =>
              simp [confirm_or_create_bucket, hh, hcr, hs, hp] at h
              refine ⟨[Call.headBucket b,
                Call.createBucket "private" b (if r = "us-east-1" then none else some r),
                Call.putPublicAccessBlock b ⟨true, true, true, true⟩],
                [resp.rendered, "Error: bucket creation failed."],
                by simp [← h, Eff.call, Eff.err], ?_⟩
              simp
            | error e3 =>
              simp [confirm_or_create_bucket, hh, hcr, hs, hp] at h
              refine ⟨[Call.headBucket b,
                Call.createBucket "private" b (if r = "us-east-1" then none else some r),
                Call.putPublicAccessBlock b ⟨true, true, true, true⟩],
                [resp.rendered, "Error: bucket creation failed.", e3.render],
                by simp [← h, Eff.call, Eff.err], ?_⟩
              simp
      · simp [confirm_or_create_bucket, hh, hc] at h
        exact ⟨[Call.headBucket b], [(PyExn.clientError code msg).render],
          by simp [← h, Eff.call, Eff.err], by simp⟩

theorem policyStep_shape (iam : IAMClient) (args : Args) (st : Eff) :
    ∃ lc le, (confirm_or_create_policy iam args st).2 =
      ⟨st.calls ++ lc, st.stdoutLines, st.stderrLines ++ le⟩ ∧
      ∀ c ∈ lc, c = Call.listPolicies "Local" ∨ ∃ n d, c = Call.createPolicy n d := by
  cases hl : iam.list_policies "Local" with
  | error e =>
    exact ⟨[Call.listPolicies "Local"], [e.render],
      by simp [confirm_or_create_policy, hl, Eff.call, Eff.err], by simp⟩
  | ok policies =>
    cases hs : arnSearch policies args.policy with
    | some arn =>
      exact ⟨[Call.listPolicies "Local"], [],
        by simp [confirm_or_create_policy, hl, hs, Eff.call], by simp⟩
    | none =>
      cases hg : args.access.bind (fun a => generatedPolicy a args.bucket) with
      | none =>
        exact ⟨[Call.listPolicies "Local"], ["Error: '--access' must be one of r, w, or rw."],
          by simp [confirm_or_create_policy, hl, hs, hg, Eff.call, Eff.err], by simp⟩
      | some doc =>
        cases hcp : iam.create_policy args.policy (policyDocumentString doc) with
        | error e =>
          refine ⟨[Call.listPolicies "Local",
            Call.createPolicy args.policy (policyDocumentString doc)], [e.render],
            by simp [confirm_or_create_policy, hl, hs, hg, hcp, Eff.call, Eff.err], ?_⟩
          simp
        | ok resp =>
          by_cases hst : resp.httpStatusCode = 200
          · refine ⟨[Call.listPolicies "Local",
              Call.createPolicy args.policy (policyDocumentString doc)], [],
              by simp [confirm_or_create_policy, hl, hs, hg, hcp, hst, Eff.call], ?_⟩
            simp
          · refine ⟨[Call.listPolicies "Local",
              Call.createPolicy args.policy (policyDocumentString doc)],
              [resp.rendered, "Error: policy creation failed."],
              by simp [confirm_or_create_policy, hl, hs, hg, hcp, hst, Eff.call, Eff.err], ?_⟩
            simp

/-! ### Helper lemmas: each block succeeds when its failures are client errors -/

theorem bucketStep_progress (r : String) (s3 : S3Client) (b : String) (st : Eff)
    (hh : ∀ m, s3.head_bucket b ≠ .error (.other m)) :
    ∃ st', confirm_or_create_bucket r s3 b st = .ok st' := by
  cases hh2 : s3.head_bucket b with
  | ok v => exact ⟨_, by simp only [confirm_or_create_bucket, hh2]; rfl⟩
  | error e =>
    cases e with
    | other m => exact absurd hh2 (hh m)
    | clientError code msg =>
      by_cases hc : code = "404"
      · subst hc
        cases hcr : s3.create_bucket "private" b (if r = "us-east-1" then none else some r) with
        | error e2 => exact ⟨_, by simp only [confirm_or_create_bucket, hh2, hcr]; rfl⟩
        | ok resp =>
          cases hp : s3.put_public_access_block b ⟨true, true, true, true⟩ with
          | ok v2 => exact ⟨_, by simp only [confirm_or_create_bucket, hh2, hcr, hp]; rfl⟩
          | error e3 => exact ⟨_, by simp only [confirm_or_create_bucket, hh2, hcr, hp]; rfl⟩
      · exact ⟨_, by simp only [confirm_or_create_bucket, hh2, if_neg hc]; rfl⟩

theorem userStep_progress (iam : IAMClient) (u : Option String) (st : Eff)
    (hu : ∀ m, iam.create_user u userTags ≠ .error (.other m)) :
    ∃ st', userStep iam u st = .ok st' := by
  cases hr : iam.create_user u userTags with
  | ok v => exact ⟨_, by simp only [userStep, hr]; rfl⟩
  | error e =>
    cases e with
    | other m => exact absurd hr (hu m)
    | clientError code msg =>
      by_cases hc : code = "EntityAlreadyExists"
      · subst hc; exact ⟨_, by simp only [userStep, hr]; rfl⟩
      · exact ⟨_, by simp only [userStep, hr, if_neg hc]; rfl⟩

theorem attachStep_progress (iam : IAMClient) (u : Option String) (arn : Option String)
    (st : Eff) (ha : ∀ a m, iam.attach_user_policy u a ≠ .error (.other m)) :
    ∃ st', attachStep iam u arn st = .ok st' := by
  cases arn with
  | none => exact ⟨_, by simp only [attachStep]; rfl⟩
  | some a =>
    cases hr : iam.attach_user_policy u a with
    | ok v => exact ⟨_, by simp only [attachStep, hr]; rfl⟩
    | error e =>
      cases e with
      | other m => exact absurd hr (ha a m)
      | clientError code msg => exact ⟨_, by simp only [attachStep, hr]; rfl⟩

theorem keyStep_progress (iam : IAMClient) (u : Option String) (st : Eff)
    (hk : ∀ m, iam.create_access_key u ≠ .error (.other m)) :
    ∃ st', keyStep iam u st = .ok st' := by
  cases hr : iam.create_access_key u with
  | ok k => exact ⟨_, by simp only [keyStep, hr]; rfl⟩
  | error e =>
    cases e with
    | other m => exact absurd hr (hk m)
    | clientError code msg => exact ⟨_, by simp only [keyStep, hr]; rfl⟩

/-! ### Helper lemma: decomposing a completed run of `main'` -/

theorem main_ok_elim (args : Args) (sts : STSClient) (s3 : S3Client) (iam : IAMClient)
    (ret : Option Int) (eff : Eff) (h : main' args sts s3 iam = .ok (ret, eff)) :
    ∃ st1 st2 arn st3 st4 st5,
      identityStep sts Eff.empty = .ok st1 ∧
      confirm_or_create_bucket aws_region_main s3 args.bucket st1 = .ok st2 ∧
      confirm_or_create_policy iam args st2 = (arn, st3) ∧
      userStep iam args.user st3 = .ok st4 ∧
      attachStep iam args.user arn st4 = .ok st5 ∧
      keyStep iam args.user st5 = .ok eff ∧ ret = none := by
  cases h1 : identityStep sts Eff.empty with
  | error e => simp [main', h1] at h
  | ok st1 =>
    cases h2 : confirm_or_create_bucket aws_region_main s3 args.bucket st1 with
    | error e => simp [main', h1, h2] at h
    | ok st2 =>
      cases h3 : confirm_or_create_policy iam args st2 with
      | mk arn st3 =>
        cases h4 : userStep iam args.user st3 with
        | error e => simp [main', h1, h2, h3, h4] at h
        | ok st4 =>
          cases h5 : attachStep iam args.user arn st4 with
          | error e => simp [main', h1, h2, h3, h4, h5] at h
          | ok st5 =>
            cases h6 : keyStep iam args.user st5 with
            | error e => simp [main', h1, h2, h3, h4, h5, h6] at h
            | ok st6 =>
              simp [main', h1, h2, h3, h4, h5, h6] at h
              exact ⟨st1, st2, arn, st3, st4, st5, rfl, h2, h3, h4, h5,
                h.2 ▸ h6, h.1.symm⟩

/-! ### The claims -/

/-- C4: when the initial `head_bucket` read succeeds, `confirm_or_create_bucket`
returns after that single read: the only provider call added is the
`headBucket` read itself, and no `createBucket` or `putPublicAccessBlock`
call is issued, and no output is written. -/
theorem C4_bucket_reconcile_idempotent (aws_region : String) (s3 : S3Client)
    (bucket_name : String) (st : Eff)
    (h : s3.head_bucket bucket_name = .ok ()) :
    confirm_or_create_bucket aws_region s3 bucket_name st =
      .ok (st.call (.headBucket bucket_name)) := by
  simp only [confirm_or_create_bucket, h]

/-- Witness for C4 at a concrete client whose bucket exists. -/
theorem C4_witness :
    s3AllOk.head_bucket "evidence-bucket" = .ok () ∧
    confirm_or_create_bucket "us-east-1" s3AllOk "evidence-bucket" Eff.empty =
      .ok (Eff.empty.call (.headBucket "evidence-bucket")) :=
  ⟨rfl, C4_bucket_reconcile_idempotent "us-east-1" s3AllOk "evidence-bucket" Eff.empty rfl⟩

/-- C2: when the listed policies contain an entry named like the requested
policy, `confirm_or_create_policy` returns that entry's ARN (the last
matching entry, since the loop does not break), issues only the
`listPolicies` call (no `createPolicy`), and its result does not depend on
the access-mode argument at all. -/
theorem C2_existing_policy_returned (iam : IAMClient) (args : Args) (st : Eff)
    (policies : List PolicyEntry) (p₀ : PolicyEntry)
    (hlist : iam.list_policies "Local" = .ok policies)
    (hp : p₀ ∈ policies) (hname : p₀.policyName = args.policy) :
    ∃ p ∈ policies, p.policyName = args.policy ∧
      confirm_or_create_policy iam args st = (some p.arn, st.call (.listPolicies "Local")) ∧
      ∀ a, confirm_or_create_policy iam { args with access := a } st =
        confirm_or_create_policy iam args st := by
  obtain ⟨p, hpmem, hq, hsome⟩ := arnSearch_finds args.policy policies ⟨p₀, hp, hname⟩
  have hbase : confirm_or_create_policy iam args st =
      (some p.arn, st.call (.listPolicies "Local")) := by
    simp only [confirm_or_create_policy, hlist, hsome]
  refine ⟨p, hpmem, hq, hbase, fun a => ?_⟩
  have hvar : confirm_or_create_policy iam { args with access := a } st =
      (some p.arn, st.call (.listPolicies "Local")) := by
    simp only [confirm_or_create_policy, hlist]
    simp only [show ({ args with access := a } : Args).policy = args.policy from rfl, hsome]
  rw [hvar, hbase]

/-- Witness for C2 at a concrete listing containing the requested name. -/
theorem C2_witness :
    iamFound.list_policies "Local" = .ok [existingPolicy] ∧
    existingPolicy ∈ [existingPolicy] ∧
    existingPolicy.policyName = argsR.policy ∧
    ∃ p ∈ [existingPolicy], p.policyName = argsR.policy ∧
      confirm_or_create_policy iamFound argsR Eff.empty =
        (some p.arn, Eff.empty.call (.listPolicies "Local")) ∧
      ∀ a, confirm_or_create_policy iamFound { argsR with access := a } Eff.empty =
        confirm_or_create_policy iamFound argsR Eff.empty :=
  ⟨rfl, List.mem_singleton.mpr rfl, rfl,
    C2_existing_policy_returned iamFound argsR Eff.empty [existingPolicy] existingPolicy
      rfl (List.mem_singleton.mpr rfl) rfl⟩

/-- C1: when `confirm_or_create_policy` creates a policy (name not listed,
access mode one of `r`/`w`/`rw`), the document it sends is the serialized
`generatedPolicy`, whose second statement carries exactly the actions of
the mode (`r`: ListBucket/GetObject/GetObjectAcl/GetObjectTagging; `w`:
ListBucket/PutObject/PutObjectAcl/PutObjectTagging; `rw`: their union) and
whose resource list is exactly the two entries `arn:aws:s3:::<bucket>/*`
and `arn:aws:s3:::<bucket>` (in that source order). -/
theorem C1_created_policy_document (iam : IAMClient) (args : Args) (st : Eff)
    (policies : List PolicyEntry) (mode : String)
    (hlist : iam.list_policies "Local" = .ok policies)
    (hnone : ∀ p ∈ policies, p.policyName ≠ args.policy)
    (haccess : args.access = some mode)
    (hmode : mode = "r" ∨ mode = "w" ∨ mode = "rw") :
    ∃ d, generatedPolicy mode args.bucket = some d ∧
      (confirm_or_create_policy iam args st).2.calls =
        st.calls ++ [Call.listPolicies "Local",
          Call.createPolicy args.policy (policyDocumentString d)] ∧
      statementField d 1 "Resource" =
        some (.arr (jlist [.str ("arn:aws:s3:::" ++ args.bucket ++ "/*"),
          .str ("arn:aws:s3:::" ++ args.bucket)])) ∧
      jlistLength (jlist [JVal.str ("arn:aws:s3:::" ++ args.bucket ++ "/*"),
        JVal.str ("arn:aws:s3:::" ++ args.bucket)]) = 2 ∧
      (mode = "r" → statementField d 1 "Action" =
        some (.arr (jlist [.str "s3:ListBucket", .str "s3:GetObject",
          .str "s3:GetObjectAcl", .str "s3:GetObjectTagging"]))) ∧
      (mode = "w" → statementField d 1 "Action" =
        some (.arr (jlist [.str "s3:ListBucket", .str "s3:PutObject",
          .str "s3:PutObjectAcl", .str "s3:PutObjectTagging"]))) ∧
      (mode = "rw" → statementField d 1 "Action" =
        some (.arr (jlist [.str "s3:ListBucket", .str "s3:GetObject",
          .str "s3:GetObjectAcl", .str "s3:GetObjectTagging", .str "s3:PutObject",
          .str "s3:PutObjectAcl", .str "s3:PutObjectTagging"]))) := by
  have hsearch := arnSearch_eq_none args.policy policies hnone
  have hcalls : ∀ d, args.access.bind (fun a => generatedPolicy a args.bucket) = some d →
      (confirm_or_create_policy iam args st).2.calls =
        st.calls ++ [Call.listPolicies "Local",
          Call.createPolicy args.policy (policyDocumentString d)] := by
    intro d hd
    cases hcp : iam.create_policy args.policy (policyDocumentString d) with
    | error e =>
      simp [confirm_or_create_policy, hlist, hsearch, hd, hcp, Eff.call, Eff.err]
    | ok resp =>
      by_cases hst : resp.httpStatusCode = 200
      · simp [confirm_or_create_policy, hlist, hsearch, hd, hcp, hst, Eff.call]
      · simp [confirm_or_create_policy, hlist, hsearch, hd, hcp, hst, Eff.call, Eff.err]
  rcases hmode with hm | hm | hm
  all_goals subst hm
  · exact ⟨_, rfl, hcalls _ (by rw [haccess]; rfl), rfl, rfl,
      fun _ => rfl, fun h => absurd h (by decide), fun h => absurd h (by decide)⟩
  · exact ⟨_, rfl, hcalls _ (by rw [haccess]; rfl), rfl, rfl,
      fun h => absurd h (by decide), fun _ => rfl, fun h => absurd h (by decide)⟩
  · exact ⟨_, rfl, hcalls _ (by rw [haccess]; rfl), rfl, rfl,
      fun h => absurd h (by decide), fun h => absurd h (by decide), fun _ => rfl⟩

/-- Witness for C1 at mode `r` with an empty policy listing. -/
theorem C1_witness :
    iamEmptyOk.list_policies "Local" = .ok [] ∧
    argsR.access = some "r" ∧
    ∃ d, generatedPolicy "r" argsR.bucket = some d ∧
      (confirm_or_create_policy iamEmptyOk argsR Eff.empty).2.calls =
        Eff.empty.calls ++ [Call.listPolicies "Local",
          Call.createPolicy argsR.policy (policyDocumentString d)] ∧
      statementField d 1 "Resource" =
        some (.arr (jlist [.str ("arn:aws:s3:::" ++ argsR.bucket ++ "/*"),
          .str ("arn:aws:s3:::" ++ argsR.bucket)])) ∧
      jlistLength (jlist [JVal.str ("arn:aws:s3:::" ++ argsR.bucket ++ "/*"),
        JVal.str ("arn:aws:s3:::" ++ argsR.bucket)]) = 2 ∧
      ("r" = "r" → statementField d 1 "Action" =
        some (.arr (jlist [.str "s3:ListBucket", .str "s3:GetObject",
          .str "s3:GetObjectAcl", .str "s3:GetObjectTagging"]))) ∧
      ("r" = "w" → statementField d 1 "Action" =
        some (.arr (jlist [.str "s3:ListBucket", .str "s3:PutObject",
          .str "s3:PutObjectAcl", .str "s3:PutObjectTagging"]))) ∧
      ("r" = "rw" → statementField d 1 "Action" =
        some (.arr (jlist [.str "s3:ListBucket", .str "s3:GetObject",
          .str "s3:GetObjectAcl", .str "s3:GetObjectTagging", .str "s3:PutObject",
          .str "s3:PutObjectAcl", .str "s3:PutObjectTagging"]))) :=
  ⟨rfl, rfl,
    C1_created_policy_document iamEmptyOk argsR Eff.empty [] "r" rfl (by simp) rfl
      (Or.inl rfl)⟩

/-- C3: with the requested name absent from the listing and an access mode
that is none of `r`, `w`, `rw`, `confirm_or_create_policy` writes the
validation error, issues no `createPolicy` call and returns a null ARN;
and any completed run of `main'` with these inputs writes the
cannot-attach error and never issues an `attachUserPolicy` call. -/
theorem C3_invalid_access_mode (iam : IAMClient) (args : Args) (st : Eff)
    (policies : List PolicyEntry)
    (hlist : iam.list_policies "Local" = .ok policies)
    (hnone : ∀ p ∈ policies, p.policyName ≠ args.policy)
    (hbad : ∀ a, args.access = some a → ¬(a = "r" ∨ a = "w" ∨ a = "rw")) :
    confirm_or_create_policy iam args st =
      (none, (st.call (.listPolicies "Local")).err
        "Error: '--access' must be one of r, w, or rw.") ∧
    ∀ (sts : STSClient) (s3 : S3Client) (ret : Option Int) (eff : Eff),
      main' args sts s3 iam = .ok (ret, eff) →
        "ERROR: Can't attach policy: no policy exists." ∈ eff.stderrLines ∧
        ∀ u a, Call.attachUserPolicy u a ∉ eff.calls := by
  have hsearch := arnSearch_eq_none args.policy policies hnone
  have hlook : args.access.bind (fun a => generatedPolicy a args.bucket) = none := by
    cases hacc : args.access with
    | none => rfl
    | some a =>
      have hne := hbad a hacc
      push_neg at hne
      obtain ⟨hr, hw, hrw⟩ := hne
      have e1 : (a == "r") = false := beq_eq_false_iff_ne.mpr hr
      have e2 : (a == "w") = false := beq_eq_false_iff_ne.mpr hw
      have e3 : (a == "rw") = false := beq_eq_false_iff_ne.mpr hrw
      simp [generatedPolicy, iam_policies, List.lookup, e1, e2, e3]
  have hfn : ∀ s : Eff, confirm_or_create_policy iam args s =
      (none, (s.call (.listPolicies "Local")).err
        "Error: '--access' must be one of r, w, or rw.") := by
    intro s
    simp only [confirm_or_create_policy, hlist, hsearch, hlook]
  refine ⟨hfn st, fun sts s3 ret eff hmain => ?_⟩
  obtain ⟨st1, st2, arn, st3, st4, st5, h1, h2, h3, h4, h5, h6, hret⟩ :=
    main_ok_elim args sts s3 iam ret eff hmain
  rw [hfn st2] at h3
  injection h3 with h3a h3b
  subst h3a
  subst h3b
  have h5' := attachStep_none_shape iam args.user st4 st5 h5
  obtain ⟨lo, le, heff, _, _⟩ := keyStep_shape iam args.user st5 eff h6
  obtain ⟨le1, h1'⟩ := identityStep_shape sts Eff.empty st1 h1
  obtain ⟨lc2, le2, h2', hcls2⟩ := bucketStep_shape aws_region_main s3 args.bucket st1 st2 h2
  obtain ⟨le4, h4'⟩ := userStep_shape iam args.user _ st4 h4
  constructor
  · rw [heff, h5']
    simp [Eff.err]
  · intro u a hinmem
    rw [heff, h5', h4', h2', h1'] at hinmem
    simp [Eff.err, Eff.call, Eff.empty, List.mem_append] at hinmem
    rcases hcls2 _ hinmem with hy | ⟨loc, hy⟩ | ⟨cfg, hy⟩ <;> cases hy

/-- C3 witness: a concrete run with access mode `x` and an empty listing. -/
theorem C3_witness :
    iamEmptyOk.list_policies "Local" = .ok [] ∧
    argsBadAccess.access = some "x" ∧
    (confirm_or_create_policy iamEmptyOk argsBadAccess Eff.empty =
      (none, (Eff.empty.call (.listPolicies "Local")).err
        "Error: '--access' must be one of r, w, or rw.") ∧
    ∀ (sts : STSClient) (s3 : S3Client) (ret : Option Int) (eff : Eff),
      main' argsBadAccess sts s3 iamEmptyOk = .ok (ret, eff) →
        "ERROR: Can't attach policy: no policy exists." ∈ eff.stderrLines ∧
        ∀ u a, Call.attachUserPolicy u a ∉ eff.calls) :=
  ⟨rfl, rfl,
    C3_invalid_access_mode iamEmptyOk argsBadAccess Eff.empty [] rfl (by simp)
      (by intro a ha; simp [argsBadAccess] at ha; subst ha; decide)⟩

/-- C5 counterexample: the identity check (line 211) is not inside any
`try`/`except`, so a provider failure there is re-raised out of `main` and
the run does not proceed to any later step — refuting the claim that every
provider-call failure is caught locally. -/
theorem C5_counterexample :
    main' argsR stsDenied s3AllOk iamEmptyOk =
      .error (.clientError "AccessDenied"
        "An error occurred (AccessDenied) when calling the GetCallerIdentity operation") := by
  rfl

/-- The ARN computed by `confirm_or_create_policy` does not depend on the
incoming effect state, only on the oracles and the arguments. -/
theorem policyArn_state_independent (iam : IAMClient) (args : Args) (st st' : Eff) :
    (confirm_or_create_policy iam args st).1 = (confirm_or_create_policy iam args st').1 := by
  cases hl : iam.list_policies "Local" with
  | error e => simp [confirm_or_create_policy, hl]
  | ok policies =>
    cases hs : arnSearch policies args.policy with
    | some arn => simp [confirm_or_create_policy, hl, hs]
    | none =>
      cases hg : args.access.bind (fun a => generatedPolicy a args.bucket) with
      | none => simp [confirm_or_create_policy, hl, hs, hg]
      | some doc =>
        cases hcp : iam.create_policy args.policy (policyDocumentString doc) with
        | error e => simp [confirm_or_create_policy, hl, hs, hg, hcp]
        | ok resp =>
          by_cases hst : resp.httpStatusCode = 200 <;>
            simp [confirm_or_create_policy, hl, hs, hg, hcp, hst]

/-- C5 (amended): provided the identity check succeeds and every other
provider failure is a client error (botocore `ClientError`), every failure
is caught locally, its rendered message is written to the error stream,
and the run proceeds through every step: `main'` returns normally, the
final access-key call is always issued, and each caught client-error
failure — head_bucket with a non-404 code, create_bucket or the
public-access block after a 404 (the region in `main` is `us-east-1`, so
no location constraint is passed), list_policies, create_policy,
create_user with a code other than EntityAlreadyExists, attach_user_policy
on the computed ARN, and create_access_key — leaves its message in the
run's standard-error lines. -/
theorem C5_caught_failures_progress (args : Args) (sts : STSClient) (s3 : S3Client)
    (iam : IAMClient) (ident : IdentityResp)
    (hsts : sts.get_caller_identity = .ok ident)
    (hh : ∀ m, s3.head_bucket args.bucket ≠ .error (.other m))
    (hu : ∀ m, iam.create_user args.user userTags ≠ .error (.other m))
    (ha : ∀ a m, iam.attach_user_policy args.user a ≠ .error (.other m))
    (hk : ∀ m, iam.create_access_key args.user ≠ .error (.other m)) :
    ∃ eff, main' args sts s3 iam = .ok (none, eff) ∧
      Call.createAccessKey args.user ∈ eff.calls ∧
      (∀ code m, code ≠ "404" → s3.head_bucket args.bucket = .error (.clientError code m) →
        (PyExn.clientError code m).render ∈ eff.stderrLines) ∧
      (∀ m e, s3.head_bucket args.bucket = .error (.clientError "404" m) →
        s3.create_bucket "private" args.bucket none = .error e →
        e.render ∈ eff.stderrLines) ∧
      (∀ m resp e, s3.head_bucket args.bucket = .error (.clientError "404" m) →
        s3.create_bucket "private" args.bucket none = .ok resp →
        s3.put_public_access_block args.bucket ⟨true, true, true, true⟩ = .error e →
        e.render ∈ eff.stderrLines) ∧
      (∀ e, iam.list_policies "Local" = .error e → e.render ∈ eff.stderrLines) ∧
      (∀ policies d e, iam.list_policies "Local" = .ok policies →
        arnSearch policies args.policy = none →
        args.access.bind (fun a => generatedPolicy a args.bucket) = some d →
        iam.create_policy args.policy (policyDocumentString d) = .error e →
        e.render ∈ eff.stderrLines) ∧
      (∀ code m, code ≠ "EntityAlreadyExists" →
        iam.create_user args.user userTags = .error (.clientError code m) →
        (PyExn.clientError code m).render ∈ eff.stderrLines) ∧
      (∀ a code m, (confirm_or_create_policy iam args Eff.empty).1 = some a →
        iam.attach_user_policy args.user a = .error (.clientError code m) →
        (PyExn.clientError code m).render ∈ eff.stderrLines) ∧
      (∀ code m, iam.create_access_key args.user = .error (.clientError code m) →
        (PyExn.clientError code m).render ∈ eff.stderrLines) := by
  have h1 : identityStep sts Eff.empty =
      .ok ((Eff.empty.call .getCallerIdentity).err (identityLine ident)) := by
    simp [identityStep, hsts]
  set s1 : Eff := (Eff.empty.call Call.getCallerIdentity).err (identityLine ident) with hs1
  obtain ⟨st2, h2⟩ := bucketStep_progress aws_region_main s3 args.bucket s1 hh
  cases hp : confirm_or_create_policy iam args st2 with
  | mk arn st3 =>
    obtain ⟨st4, h4⟩ := userStep_progress iam args.user st3 hu
    obtain ⟨st5, h5⟩ := attachStep_progress iam args.user arn st4 ha
    obtain ⟨st6, h6⟩ := keyStep_progress iam args.user st5 hk
    have hst3 : st3 = (confirm_or_create_policy iam args st2).2 := by rw [hp]
    obtain ⟨lc3, le3, h3s, -⟩ := policyStep_shape iam args st2
    obtain ⟨le4, h4s⟩ := userStep_shape iam args.user st3 st4 h4
    obtain ⟨lc5, le5, h5s, -⟩ := attachStep_shape iam args.user arn st4 st5 h5
    obtain ⟨lo6, le6, h6s, -, -⟩ := keyStep_shape iam args.user st5 st6 h6
    have e3 : st3.stderrLines = st2.stderrLines ++ le3 := by rw [hst3, h3s]
    have e4 : st4.stderrLines = st3.stderrLines ++ le4 := by rw [h4s]
    have e5 : st5.stderrLines = st4.stderrLines ++ le5 := by rw [h5s]
    have e6 : st6.stderrLines = st5.stderrLines ++ le6 := by rw [h6s]
    have lift5 : ∀ x, x ∈ st5.stderrLines → x ∈ st6.stderrLines := by
      intro x hx; rw [e6]; exact List.mem_append_left _ hx
    have lift4 : ∀ x, x ∈ st4.stderrLines → x ∈ st6.stderrLines := by
      intro x hx; exact lift5 x (by rw [e5]; exact List.mem_append_left _ hx)
    have lift3 : ∀ x, x ∈ st3.stderrLines → x ∈ st6.stderrLines := by
      intro x hx; exact lift4 x (by rw [e4]; exact List.mem_append_left _ hx)
    have lift2 : ∀ x, x ∈ st2.stderrLines → x ∈ st6.stderrLines := by
      intro x hx; exact lift3 x (by rw [e3]; exact List.mem_append_left _ hx)
    have hmain : main' args sts s3 iam = .ok (none, st6) := by
      simp [main', h1, h2, hp, h4, h5, h6]
    refine ⟨st6, hmain, ?_, ?_, ?_, ?_, ?_, ?_, ?_, ?_, ?_⟩
    · rw [h6s]; simp
    · intro code m hne hf
      have hb : confirm_or_create_bucket aws_region_main s3 args.bucket s1 =
          .ok ((s1.call (.headBucket args.bucket)).err
            (PyExn.clientError code m).render) := by
        simp only [confirm_or_create_bucket, hf, if_neg hne]
      have hx := h2.symm.trans hb
      injection hx with hx
      apply lift2
      rw [hx]
      simp [Eff.call, Eff.err]
    · intro m e hf hcr
      have hb : confirm_or_create_bucket aws_region_main s3 args.bucket s1 =
          .ok (((s1.call (.headBucket args.bucket)).call
            (.createBucket "private" args.bucket none)).err e.render) := by
        simp [confirm_or_create_bucket, aws_region_main, hf, hcr]
      have hx := h2.symm.trans hb
      injection hx with hx
      apply lift2
      rw [hx]
      simp [Eff.call, Eff.err]
    · intro m resp e hf hcr hpab
      by_cases hstc : resp.httpStatusCode = 200
      · have hb : confirm_or_create_bucket aws_region_main s3 args.bucket s1 =
            .ok ((((s1.call (.headBucket args.bucket)).call
              (.createBucket "private" args.bucket none)).call
              (.putPublicAccessBlock args.bucket ⟨true, true, true, true⟩)).err
                e.render) := by
          simp [confirm_or_create_bucket, aws_region_main, hf, hcr, hpab, hstc]
        have hx := h2.symm.trans hb
        injection hx with hx
        apply lift2
        rw [hx]
        simp [Eff.call, Eff.err]
      · have hb : confirm_or_create_bucket aws_region_main s3 args.bucket s1 =
            .ok (((((((s1.call (.headBucket args.bucket)).call
              (.createBucket "private" args.bucket none)).err resp.rendered).err
              "Error: bucket creation failed.").call
              (.putPublicAccessBlock args.bucket ⟨true, true, true, true⟩)).err
                e.render)) := by
          simp [confirm_or_create_bucket, aws_region_main, hf, hcr, hpab, hstc]
        have hx := h2.symm.trans hb
        injection hx with hx
        apply lift2
        rw [hx]
        simp [Eff.call, Eff.err]
    · intro e hf
      have hpol : confirm_or_create_policy iam args st2 =
          (none, (st2.call (.listPolicies "Local")).err e.render) := by
        simp only [confirm_or_create_policy, hf]
      have hx := hp.symm.trans hpol
      injection hx with hx1 hx2
      apply lift3
      rw [hx2]
      simp [Eff.call, Eff.err]
    · intro policies d e hl hs hg hcp
      have hpol : confirm_or_create_policy iam args st2 =
          (none, ((st2.call (.listPolicies "Local")).call
            (.createPolicy args.policy (policyDocumentString d))).err e.render) := by
        simp only [confirm_or_create_policy, hl, hs, hg, hcp]
      have hx := hp.symm.trans hpol
      injection hx with hx1 hx2
      apply lift3
      rw [hx2]
      simp [Eff.call, Eff.err]
    · intro code m hne hcu
      have hus : userStep iam args.user st3 =
          .ok ((st3.call (.createUser args.user userTags)).err
            (PyExn.clientError code m).render) := by
        simp only [userStep, hcu, if_neg hne]
      have hx := h4.symm.trans hus
      injection hx with hx
      apply lift4
      rw [hx]
      simp [Eff.call, Eff.err]
    · intro a code m hparn hatt
      have harn : arn = some a := by
        have hind := policyArn_state_independent iam args st2 Eff.empty
        rw [hp] at hind
        exact hind.trans hparn
      subst harn
      have hat : attachStep iam args.user (some a) st4 =
          .ok ((st4.call (.attachUserPolicy args.user a)).err
            (PyExn.clientError code m).render) := by
        simp only [attachStep, hatt]
      have hx := h5.symm.trans hat
      injection hx with hx
      apply lift5
      rw [hx]
      simp [Eff.call, Eff.err]
    · intro code m hkf
      have hks : keyStep iam args.user st5 =
          .ok ((st5.call (.createAccessKey args.user)).err
            (PyExn.clientError code m).render) := by
        simp only [keyStep, hkf]
      have hx := h6.symm.trans hks
      injection hx with hx
      rw [hx]
      simp [Eff.call, Eff.err]

/-- C5 witness: a run in which the bucket read fails with a 403 client
error, policy creation, user creation and key creation all fail with
client errors, and every one of these failures is caught — the run still
completes and issues the access-key call, with the conditional
written-to-stderr conjuncts instantiated by genuinely failing oracles. -/
theorem C5_witness :
    stsOk.get_caller_identity = .ok identOkResp ∧
    s3Forbidden.head_bucket argsR.bucket = .error (.clientError "403" "Forbidden") ∧
    iamFailing.create_user argsR.user userTags =
      .error (.clientError "LimitExceeded" "Cannot exceed quota for UsersPerAccount.") ∧
    iamFailing.create_access_key argsR.user =
      .error (.clientError "AccessDeniedException" "Not authorized to create access keys.") ∧
    (∃ eff, main' argsR stsOk s3Forbidden iamFailing = .ok (none, eff) ∧
      Call.createAccessKey argsR.user ∈ eff.calls ∧
      (∀ code m, code ≠ "404" →
        s3Forbidden.head_bucket argsR.bucket = .error (.clientError code m) →
        (PyExn.clientError code m).render ∈ eff.stderrLines) ∧
      (∀ m e, s3Forbidden.head_bucket argsR.bucket = .error (.clientError "404" m) →
        s3Forbidden.create_bucket "private" argsR.bucket none = .error e →
        e.render ∈ eff.stderrLines) ∧
      (∀ m resp e, s3Forbidden.head_bucket argsR.bucket = .error (.clientError "404" m) →
        s3Forbidden.create_bucket "private" argsR.bucket none = .ok resp →
        s3Forbidden.put_public_access_block argsR.bucket ⟨true, true, true, true⟩ = .error e →
        e.render ∈ eff.stderrLines) ∧
      (∀ e, iamFailing.list_policies "Local" = .error e → e.render ∈ eff.stderrLines) ∧
      (∀ policies d e, iamFailing.list_policies "Local" = .ok policies →
        arnSearch policies argsR.policy = none →
        argsR.access.bind (fun a => generatedPolicy a argsR.bucket) = some d →
        iamFailing.create_policy argsR.policy (policyDocumentString d) = .error e →
        e.render ∈ eff.stderrLines) ∧
      (∀ code m, code ≠ "EntityAlreadyExists" →
        iamFailing.create_user argsR.user userTags = .error (.clientError code m) →
        (PyExn.clientError code m).render ∈ eff.stderrLines) ∧
      (∀ a code m, (confirm_or_create_policy iamFailing argsR Eff.empty).1 = some a →
        iamFailing.attach_user_policy argsR.user a = .error (.clientError code m) →
        (PyExn.clientError code m).render ∈ eff.stderrLines) ∧
      (∀ code m, iamFailing.create_access_key argsR.user = .error (.clientError code m) →
        (PyExn.clientError code m).render ∈ eff.stderrLines)) :=
  ⟨rfl, rfl, rfl, rfl,
    C5_caught_failures_progress argsR stsOk s3Forbidden iamFailing identOkResp rfl
      (by simp [s3Forbidden, s3AllOk]) (by simp [iamFailing]) (by simp [iamFailing])
      (by simp [iamFailing])⟩

theorem bucket404_run (aws_region : String) (s3 : S3Client) (b : String) (st : Eff)
    (msg : String) (hh : s3.head_bucket b = .error (.clientError "404" msg)) :
    ∃ st', confirm_or_create_bucket aws_region s3 b st = .ok st' ∧
      Call.createBucket "private" b
        (if aws_region = "us-east-1" then none else some aws_region) ∈ st'.calls ∧
      ∀ resp, s3.create_bucket "private" b
          (if aws_region = "us-east-1" then none else some aws_region) = .ok resp →
        Call.putPublicAccessBlock b ⟨true, true, true, true⟩ ∈ st'.calls := by
  cases hcr : s3.create_bucket "private" b
      (if aws_region = "us-east-1" then none else some aws_region) with
  | error e2 =>
    refine ⟨_, by simp only [confirm_or_create_bucket, hh, hcr]; rfl, ?_, ?_⟩
    · simp [Eff.call, Eff.err]
    · intro resp hresp; cases hresp
  | ok resp =>
    cases hp : s3.put_public_access_block b ⟨true, true, true, true⟩ with
    | ok v =>
      refine ⟨_, by simp only [confirm_or_create_bucket, hh, hcr, hp]; rfl, ?_, ?_⟩
      · by_cases hst : resp.httpStatusCode = 200 <;> simp [hst, Eff.call, Eff.err]
      · intro _ _
        by_cases hst : resp.httpStatusCode = 200 <;> simp [hst, Eff.call, Eff.err]
    | error e3 =>
      refine ⟨_, by simp only [confirm_or_create_bucket, hh, hcr, hp]; rfl, ?_, ?_⟩
      · by_cases hst : resp.httpStatusCode = 200 <;> simp [hst, Eff.call, Eff.err]
      · intro _ _
        by_cases hst : resp.httpStatusCode = 200 <;> simp [hst, Eff.call, Eff.err]

/-- C6: on a `404` read failure the bucket is created — without a location
constraint exactly when the region is `us-east-1`, with the region as the
constraint otherwise — and, whenever the creation call returns, the
public-access block with all four protections set to true is applied; a
read failure with any other client-error code only writes the message and
triggers no creation. -/
theorem C6_bucket_create_paths (aws_region : String) (s3 : S3Client) (b : String) (st : Eff) :
    (∀ msg, s3.head_bucket b = .error (.clientError "404" msg) →
      ∃ st', confirm_or_create_bucket aws_region s3 b st = .ok st' ∧
        (aws_region = "us-east-1" →
          Call.createBucket "private" b none ∈ st'.calls ∧
          ∀ resp, s3.create_bucket "private" b none = .ok resp →
            Call.putPublicAccessBlock b ⟨true, true, true, true⟩ ∈ st'.calls) ∧
        (aws_region ≠ "us-east-1" →
          Call.createBucket "private" b (some aws_region) ∈ st'.calls ∧
          ∀ resp, s3.create_bucket "private" b (some aws_region) = .ok resp →
            Call.putPublicAccessBlock b ⟨true, true, true, true⟩ ∈ st'.calls)) ∧
    (∀ code msg, code ≠ "404" → s3.head_bucket b = .error (.clientError code msg) →
      confirm_or_create_bucket aws_region s3 b st =
        .ok ((st.call (.headBucket b)).err (PyExn.clientError code msg).render)) := by
  constructor
  · intro msg hh
    obtain ⟨st', hrun, hc, hpab⟩ := bucket404_run aws_region s3 b st msg hh
    by_cases hreg : aws_region = "us-east-1"
    · rw [if_pos hreg] at hc hpab
      exact ⟨st', hrun, fun _ => ⟨hc, hpab⟩, fun hne => absurd hreg hne⟩
    · rw [if_neg hreg] at hc hpab
      exact ⟨st', hrun, fun he => absurd he hreg, fun _ => ⟨hc, hpab⟩⟩
  · intro code msg hcode hh
    simp only [confirm_or_create_bucket, hh, if_neg hcode]

/-- C6 witness: region `eu-west-2` and a client whose read reports 404. -/
theorem C6_witness :
    (∀ msg, s3Missing.head_bucket "evidence-bucket" = .error (.clientError "404" msg) →
      ∃ st', confirm_or_create_bucket "eu-west-2" s3Missing "evidence-bucket" Eff.empty = .ok st' ∧
        ("eu-west-2" = "us-east-1" →
          Call.createBucket "private" "evidence-bucket" none ∈ st'.calls ∧
          ∀ resp, s3Missing.create_bucket "private" "evidence-bucket" none = .ok resp →
            Call.putPublicAccessBlock "evidence-bucket" ⟨true, true, true, true⟩ ∈ st'.calls) ∧
        ("eu-west-2" ≠ "us-east-1" →
          Call.createBucket "private" "evidence-bucket" (some "eu-west-2") ∈ st'.calls ∧
          ∀ resp, s3Missing.create_bucket "private" "evidence-bucket" (some "eu-west-2") = .ok resp →
            Call.putPublicAccessBlock "evidence-bucket" ⟨true, true, true, true⟩ ∈ st'.calls)) ∧
    (∀ code msg, code ≠ "404" →
      s3Missing.head_bucket "evidence-bucket" = .error (.clientError code msg) →
      confirm_or_create_bucket "eu-west-2" s3Missing "evidence-bucket" Eff.empty =
        .ok ((Eff.empty.call (.headBucket "evidence-bucket")).err
          (PyExn.clientError code msg).render)) :=
  C6_bucket_create_paths "eu-west-2" s3Missing "evidence-bucket" Eff.empty

/-- C7: a user-creation failure whose client-error code is
`EntityAlreadyExists` is silently ignored (no message is written — the
run's only diagnostic stays the identity line) and the run proceeds to the
policy-attachment call; any other client-error code is written to standard
error. -/
theorem C7_user_exists_is_noop (args : Args) (sts : STSClient) (s3 : S3Client)
    (iam : IAMClient) (ident : IdentityResp) (policies : List PolicyEntry) (p₀ : PolicyEntry)
    (hsts : sts.get_caller_identity = .ok ident)
    (hhead : s3.head_bucket args.bucket = .ok ())
    (hlist : iam.list_policies "Local" = .ok policies)
    (hp : p₀ ∈ policies) (hname : p₀.policyName = args.policy)
    (hattach : ∀ a, iam.attach_user_policy args.user a = .ok ())
    (hkey : ∃ k, iam.create_access_key args.user = .ok k) :
    (∀ m, iam.create_user args.user userTags = .error (.clientError "EntityAlreadyExists" m) →
      ∃ eff, main' args sts s3 iam = .ok (none, eff) ∧
        eff.stderrLines = [identityLine ident] ∧
        ∃ a, Call.attachUserPolicy args.user a ∈ eff.calls) ∧
    (∀ (st : Eff) code m, code ≠ "EntityAlreadyExists" →
      iam.create_user args.user userTags = .error (.clientError code m) →
      userStep iam args.user st =
        .ok ((st.call (.createUser args.user userTags)).err
          (PyExn.clientError code m).render)) := by
  constructor
  · intro m hm
    obtain ⟨p, hpmem, hq, hsome⟩ := arnSearch_finds args.policy policies ⟨p₀, hp, hname⟩
    obtain ⟨k, hk⟩ := hkey
    refine ⟨((((((((Eff.empty.call Call.getCallerIdentity).err (identityLine ident)).call
      (Call.headBucket args.bucket)).call (Call.listPolicies "Local")).call
      (Call.createUser args.user userTags)).call
      (Call.attachUserPolicy args.user p.arn)).call
      (Call.createAccessKey args.user)).out
      "# for Windows, use 'set' instead of 'export'").out
      ("export AWS_ACCESS_KEY_ID=" ++ k.accessKeyId) |>.out
      ("export AWS_SECRET_ACCESS_KEY=" ++ k.secretAccessKey), ?_, ?_, ⟨p.arn, ?_⟩⟩
    · simp only [main', identityStep, hsts, confirm_or_create_bucket, hhead,
        confirm_or_create_policy, hlist, hsome, userStep, hm, if_pos rfl,
        attachStep, hattach p.arn, keyStep, hk]
      rfl
    · simp [Eff.call, Eff.err, Eff.out, Eff.empty]
    · simp [Eff.call, Eff.err, Eff.out, Eff.empty]
  · intro st code m hcode hcu
    simp only [userStep, hcu, if_neg hcode]

/-- C7 witness: a concrete client whose `create_user` reports
`EntityAlreadyExists` and whose listing already carries the policy. -/
theorem C7_witness :
    iamUserExists.create_user argsR.user userTags =
      .error (.clientError "EntityAlreadyExists" "User with name es-user already exists.") ∧
    ((∀ m, iamUserExists.create_user argsR.user userTags =
        .error (.clientError "EntityAlreadyExists" m) →
      ∃ eff, main' argsR stsOk s3AllOk iamUserExists = .ok (none, eff) ∧
        eff.stderrLines = [identityLine identOkResp] ∧
        ∃ a, Call.attachUserPolicy argsR.user a ∈ eff.calls) ∧
    (∀ (st : Eff) code m, code ≠ "EntityAlreadyExists" →
      iamUserExists.create_user argsR.user userTags = .error (.clientError code m) →
      userStep iamUserExists argsR.user st =
        .ok ((st.call (.createUser argsR.user userTags)).err
          (PyExn.clientError code m).render))) :=
  ⟨rfl,
    C7_user_exists_is_noop argsR stsOk s3AllOk iamUserExists identOkResp [existingPolicy]
      existingPolicy rfl rfl rfl (List.mem_singleton.mpr rfl) rfl (fun _ => rfl)
      ⟨⟨"AKIAEXAMPLEKEY", "wJalrXUtnFEMIexampleSecret"⟩, rfl⟩⟩

/-- C8: in any completed run, standard output is exactly the comment line
followed by the two `export` lines with the fresh key material when the
key creation succeeded, and empty otherwise — every diagnostic goes to the
error stream, never to standard output. -/
theorem C8_stdout_contract (args : Args) (sts : STSClient) (s3 : S3Client)
    (iam : IAMClient) (ret : Option Int) (eff : Eff)
    (hmain : main' args sts s3 iam = .ok (ret, eff)) :
    (∀ k, iam.create_access_key args.user = .ok k →
      eff.stdoutLines = ["# for Windows, use 'set' instead of 'export'",
        "export AWS_ACCESS_KEY_ID=" ++ k.accessKeyId,
        "export AWS_SECRET_ACCESS_KEY=" ++ k.secretAccessKey]) ∧
    (∀ e, iam.create_access_key args.user = .error e → eff.stdoutLines = []) := by
  obtain ⟨st1, st2, arn, st3, st4, st5, h1, h2, h3, h4, h5, h6, hret⟩ :=
    main_ok_elim args sts s3 iam ret eff hmain
  obtain ⟨le1, h1'⟩ := identityStep_shape sts Eff.empty st1 h1
  obtain ⟨lc2, le2, h2', _⟩ := bucketStep_shape aws_region_main s3 args.bucket st1 st2 h2
  have h3' : st3 = (confirm_or_create_policy iam args st2).2 := by rw [h3]
  obtain ⟨lc3, le3, h3'', _⟩ := policyStep_shape iam args st2
  obtain ⟨le4, h4'⟩ := userStep_shape iam args.user st3 st4 h4
  obtain ⟨lc5, le5, h5', _⟩ := attachStep_shape iam args.user arn st4 st5 h5
  obtain ⟨lo, le6, heff, hok, herr⟩ := keyStep_shape iam args.user st5 eff h6
  have o1 : st1.stdoutLines = [] := by rw [h1']; rfl
  have o2 : st2.stdoutLines = [] := by rw [h2']; exact o1
  have o3 : st3.stdoutLines = [] := by rw [h3', h3'']; exact o2
  have o4 : st4.stdoutLines = [] := by rw [h4']; exact o3
  have o5 : st5.stdoutLines = [] := by rw [h5']; exact o4
  constructor
  · intro k hk
    have hlo := hok k hk
    rw [heff]
    show st5.stdoutLines ++ lo = _
    rw [o5, hlo]
    rfl
  · intro e he
    have hlo := herr e he
    rw [heff]
    show st5.stdoutLines ++ lo = []
    rw [o5, hlo]
    rfl

/-- C8 witness: the all-succeeding concrete run. -/
theorem C8_witness :
    ∃ ret eff, main' argsR stsOk s3AllOk iamFound = .ok (ret, eff) ∧
      ((∀ k, iamFound.create_access_key argsR.user = .ok k →
        eff.stdoutLines = ["# for Windows, use 'set' instead of 'export'",
          "export AWS_ACCESS_KEY_ID=" ++ k.accessKeyId,
          "export AWS_SECRET_ACCESS_KEY=" ++ k.secretAccessKey]) ∧
      (∀ e, iamFound.create_access_key argsR.user = .error e → eff.stdoutLines = [])) :=
  ⟨_, _, rfl, C8_stdout_contract argsR stsOk s3AllOk iamFound _ _ rfl⟩

/-- C9: every run that reaches the end of `main` returns Python's `None`,
so `exit(main())` always exits with status 0, even when steps reported
errors along the way. -/
theorem C9_exit_status_zero (args : Args) (sts : STSClient) (s3 : S3Client)
    (iam : IAMClient) (ret : Option Int) (eff : Eff)
    (hmain : main' args sts s3 iam = .ok (ret, eff)) :
    ret = none ∧ pyExit ret = 0 := by
  obtain ⟨_, _, _, _, _, _, _, _, _, _, _, _, hret⟩ :=
    main_ok_elim args sts s3 iam ret eff hmain
  exact ⟨hret, by rw [hret]; rfl⟩

/-- C9 witness: a concrete completed run (with a failing policy step, so an
error is reported, yet the status is still 0). -/
theorem C9_witness :
    ∃ ret eff, main' argsBadAccess stsOk s3AllOk iamEmptyOk = .ok (ret, eff) ∧
      ret = none ∧ pyExit ret = 0 :=
  ⟨_, _, rfl, C9_exit_status_zero argsBadAccess stsOk s3AllOk iamEmptyOk _ _ rfl⟩

/-! ### Helper lemmas for the serialization of the policy document (C10) -/

theorem replaceChars_append (a b : Char) (s t : String) :
    replaceChars a b (s ++ t) = replaceChars a b s ++ replaceChars a b t := by
  cases s with
  | mk ls =>
    cases t with
    | mk lt =>
      show String.mk (List.map _ (ls ++ lt)) = _
      rw [List.map_append]
      rfl

theorem replaceChars_strConcat (a b : Char) (L : List String) :
    replaceChars a b (strConcat L) = strConcat (L.map (replaceChars a b)) := by
  induction L with
  | nil => rfl
  | cons s ss ih => rw [strConcat, replaceChars_append, ih]; rfl

theorem safeChar_ne (c : Char) (h : safeChar c = true) : c ≠ squote ∧ c ≠ dquote := by
  simp only [safeChar, Bool.and_eq_true, bne_iff_ne] at h
  exact ⟨h.1.2, h.2⟩

theorem replaceChars_id_of_safe (s : String) (h : ∀ c ∈ s.data, c ≠ squote) :
    replaceChars squote dquote s = s := by
  cases s with
  | mk l =>
    show String.mk (l.map _) = String.mk l
    have : l.map (fun c => if c = squote then dquote else c) = l.map id :=
      List.map_congr_left (fun c hc => if_neg (h c hc))
    rw [this, List.map_id]

theorem replQ_char (c : Char) (h : safeChar c = true) :
    replaceChars squote dquote (pyReprChar squote c) = jsonEscapeChar c := by
  by_cases hb : c = bslash
  · subst hb; decide
  · by_cases ht : c = tabC
    · subst ht; decide
    · by_cases hn : c = nlC
      · subst hn; decide
      · by_cases hr : c = crC
        · subst hr; decide
        · have hq : c ≠ squote := (safeChar_ne c h).1
          have hd : c ≠ dquote := (safeChar_ne c h).2
          simp only [safeChar, Bool.and_eq_true, Bool.or_eq_true, beq_iff_eq,
            decide_eq_true_eq, bne_iff_ne] at h
          rcases h.1.1 with ((hx | hx) | hx) | hx
          · exact absurd hx ht
          · exact absurd hx hn
          · exact absurd hx hr
          · obtain ⟨h32, h126⟩ := hx
            have hlt : ¬(c.toNat < 32 ∨ (127 ≤ c.toNat ∧ c.toNat ≤ 160) ∨ c.toNat = 173) := by
              omega
            rw [pyReprChar, if_neg hb, if_neg hq, if_neg ht, if_neg hn, if_neg hr, if_neg hlt]
            rw [jsonEscapeChar, if_neg hd, if_neg hb, if_neg ht, if_neg hn, if_neg hr,
              if_neg (by omega : ¬ c.toNat < 32)]
            show String.mk [if c = squote then dquote else c] = String.mk [c]
            rw [if_neg hq]

theorem safe_no_squote (s : String) (h : safeStr s = true) : ∀ c ∈ s.data, c ≠ squote :=
  fun c hc => (safeChar_ne c (List.all_eq_true.mp h c hc)).1

theorem safe_containsChar (s : String) (h : safeStr s = true) :
    containsChar s squote = false := by
  rw [containsChar]
  rw [List.any_eq_false]
  intro c hc
  simpa using (safe_no_squote s h c hc)

theorem replQ_str (s : String) (h : safeStr s = true) :
    replaceChars squote dquote (pyReprStr s) = jsonStrOf s := by
  have hq := safe_containsChar s h
  rw [pyReprStr]
  simp only [hq, Bool.false_and, if_neg (Bool.false_ne_true)]
  rw [replaceChars_append, replaceChars_append]
  rw [show replaceChars squote dquote (String.singleton squote) = String.singleton dquote
    from by decide]
  rw [replaceChars_strConcat, List.map_map]
  rw [jsonStrOf]
  congr 1
  congr 1
  exact congrArg strConcat
    (List.map_congr_left (fun c hc => replQ_char c (List.all_eq_true.mp h c hc)))

mutual

theorem replQ_val : ∀ (v : JVal), safeVal v = true →
    replaceChars squote dquote (pyRepr v) = jsonDumps v
  | .str s, h => replQ_str s h
  | .num s, h => replaceChars_id_of_safe s (safe_no_squote s h)
  | .jbool b, h => by simp [safeVal] at h
  | .null, h => by simp [safeVal] at h
  | .arr xs, h => by
    rw [show pyRepr (.arr xs) = "[" ++ pyReprList xs ++ "]" from rfl]
    rw [replaceChars_append, replaceChars_append]
    rw [show replaceChars squote dquote "[" = "[" from by decide]
    rw [show replaceChars squote dquote "]" = "]" from by decide]
    rw [replQ_jlist xs h]
    rfl
  | .obj kvs, h => by
    rw [show pyRepr (.obj kvs) = lbraceS ++ pyReprObj kvs ++ rbraceS from rfl]
    rw [replaceChars_append, replaceChars_append]
    rw [show replaceChars squote dquote lbraceS = lbraceS from by decide]
    rw [show replaceChars squote dquote rbraceS = rbraceS from by decide]
    rw [replQ_jobj kvs h]
    rfl

theorem replQ_jlist : ∀ (xs : JList), safeList xs = true →
    replaceChars squote dquote (pyReprList xs) = jsonDumpsList xs
  | .nil, _ => rfl
  | .cons x .nil, h => by
    have hx : safeVal x = true := by
      have h2 : (safeVal x && safeList .nil) = true := h
      simp only [Bool.and_eq_true] at h2
      exact h2.1
    rw [show pyReprList (.cons x .nil) = pyRepr x from rfl]
    rw [replQ_val x hx]
    rfl
  | .cons x (.cons y ys), h => by
    have h2 : (safeVal x && safeList (.cons y ys)) = true := h
    simp only [Bool.and_eq_true] at h2
    obtain ⟨hx, hrest⟩ := h2
    rw [show pyReprList (.cons x (.cons y ys)) =
      pyRepr x ++ ", " ++ pyReprList (.cons y ys) from rfl]
    rw [replaceChars_append, replaceChars_append]
    rw [show replaceChars squote dquote ", " = ", " from by decide]
    rw [replQ_val x hx, replQ_jlist (.cons y ys) hrest]
    rfl

theorem replQ_jobj : ∀ (kvs : JObj), safeObj kvs = true →
    replaceChars squote dquote (pyReprObj kvs) = jsonDumpsObj kvs
  | .nil, _ => rfl
  | .cons k v .nil, h => by
    have h2 : (safeStr k && safeVal v && safeObj .nil) = true := h
    simp only [Bool.and_eq_true] at h2
    obtain ⟨⟨hk, hv⟩, _⟩ := h2
    rw [show pyReprObj (.cons k v .nil) = pyReprStr k ++ ": " ++ pyRepr v from rfl]
    rw [replaceChars_append, replaceChars_append]
    rw [show replaceChars squote dquote ": " = ": " from by decide]
    rw [replQ_str k hk, replQ_val v hv]
    rfl
  | .cons k v (.cons k2 v2 r), h => by
    have h2 : (safeStr k && safeVal v && safeObj (.cons k2 v2 r)) = true := h
    simp only [Bool.and_eq_true] at h2
    obtain ⟨⟨hk, hv⟩, hrest⟩ := h2
    rw [show pyReprObj (.cons k v (.cons k2 v2 r)) =
      pyReprStr k ++ ": " ++ pyRepr v ++ ", " ++ pyReprObj (.cons k2 v2 r) from rfl]
    rw [replaceChars_append, replaceChars_append, replaceChars_append,
      replaceChars_append]
    rw [show replaceChars squote dquote ": " = ": " from by decide]
    rw [show replaceChars squote dquote ", " = ", " from by decide]
    rw [replQ_str k hk, replQ_val v hv, replQ_jobj (.cons k2 v2 r) hrest]
    rfl

end

theorem safeStr_append (s t : String) : safeStr (s ++ t) = (safeStr s && safeStr t) := by
  simp [safeStr, String.data_append, List.all_append]

theorem safeVal_generated_r (bucket : String) (hb : safeStr bucket = true) :
    safeVal (setStatement1Resource iamPolicyR (resourceArns bucket)) = true := by
  simp +decide [setStatement1Resource, iamPolicyR, listAllBucketsStmt, jobj, jlist,
    jobjModify, jlistGet, jlistSet, jobjSet, resourceArns, safeVal, safeList, safeObj,
    safeStr_append, hb]

theorem safeVal_generated_w (bucket : String) (hb : safeStr bucket = true) :
    safeVal (setStatement1Resource iamPolicyW (resourceArns bucket)) = true := by
  simp +decide [setStatement1Resource, iamPolicyW, listAllBucketsStmt, jobj, jlist,
    jobjModify, jlistGet, jlistSet, jobjSet, resourceArns, safeVal, safeList, safeObj,
    safeStr_append, hb]

theorem safeVal_generated_rw (bucket : String) (hb : safeStr bucket = true) :
    safeVal (setStatement1Resource iamPolicyRW (resourceArns bucket)) = true := by
  simp +decide [setStatement1Resource, iamPolicyRW, listAllBucketsStmt, jobj, jlist,
    jobjModify, jlistGet, jlistSet, jobjSet, resourceArns, safeVal, safeList, safeObj,
    safeStr_append, hb]

/-- C10 (amended): the `PolicyDocument` string the script sends is Python's
`repr` of the injected template with every single-quote character replaced
by a double quote.  For every bucket name consisting of tab, newline,
carriage return, and printable ASCII characters other than the two quote
characters (`safeStr`), the document equals the standard JSON
serialization of the intended template — shown well-formed by the JSON
parser at a concrete bucket — while for a bucket name containing a single
quote the produced document is not well-formed JSON of the intended
template (the parser rejects it).  Non-printable characters are excluded
from the universal because CPython `repr` escapes them as `\xNN`, which
the JSON grammar rejects (see the counterexample: BEL and U+00A0). -/
theorem C10_document_serialization (iam : IAMClient) (args : Args) (st : Eff)
    (policies : List PolicyEntry) (mode : String)
    (hlist : iam.list_policies "Local" = .ok policies)
    (hnone : ∀ p ∈ policies, p.policyName ≠ args.policy)
    (haccess : args.access = some mode)
    (hmode : mode = "r" ∨ mode = "w" ∨ mode = "rw") :
    ∃ d, generatedPolicy mode args.bucket = some d ∧
      policyDocumentString d = replaceChars squote dquote (pyRepr d) ∧
      (confirm_or_create_policy iam args st).2.calls =
        st.calls ++ [Call.listPolicies "Local",
          Call.createPolicy args.policy (policyDocumentString d)] ∧
      (safeStr args.bucket = true → policyDocumentString d = jsonDumps d) ∧
      parseJson (policyDocumentString ((generatedPolicy "r" "evidence-server-01").getD .null)) =
        some ((generatedPolicy "r" "evidence-server-01").getD .null) ∧
      parseJson (policyDocumentString ((generatedPolicy "r" "a'b").getD .null)) = none := by
  have hsearch := arnSearch_eq_none args.policy policies hnone
  have hcalls : ∀ d, args.access.bind (fun a => generatedPolicy a args.bucket) = some d →
      (confirm_or_create_policy iam args st).2.calls =
        st.calls ++ [Call.listPolicies "Local",
          Call.createPolicy args.policy (policyDocumentString d)] := by
    intro d hd
    cases hcp : iam.create_policy args.policy (policyDocumentString d) with
    | error e =>
      simp [confirm_or_create_policy, hlist, hsearch, hd, hcp, Eff.call, Eff.err]
    | ok resp =>
      by_cases hst : resp.httpStatusCode = 200
      · simp [confirm_or_create_policy, hlist, hsearch, hd, hcp, hst, Eff.call]
      · simp [confirm_or_create_policy, hlist, hsearch, hd, hcp, hst, Eff.call, Eff.err]
  rcases hmode with hm | hm | hm
  all_goals subst hm
  · exact ⟨_, rfl, rfl, hcalls _ (by rw [haccess]; rfl),
      fun hb => replQ_val _ (safeVal_generated_r args.bucket hb), by rfl, by rfl⟩
  · exact ⟨_, rfl, rfl, hcalls _ (by rw [haccess]; rfl),
      fun hb => replQ_val _ (safeVal_generated_w args.bucket hb), by rfl, by rfl⟩
  · exact ⟨_, rfl, rfl, hcalls _ (by rw [haccess]; rfl),
      fun hb => replQ_val _ (safeVal_generated_rw args.bucket hb), by rfl, by rfl⟩

/-- C10 counterexample: the bucket name consisting of the single BEL
control character (U+0007) contains no quote character, yet the produced
document is rejected by the JSON parser — Python renders the character as
the escape `\x07`, which is not part of the JSON grammar — and differs
from the standard JSON serialization of the intended template.  The same
happens for the NO-BREAK SPACE (U+00A0), which is neither a quote, nor
DEL, nor a C0 control character, but which CPython's `repr` escapes as the
JSON-invalid `\xa0`.  This refutes the claim's universal statement over
quote-free bucket names. -/
theorem C10_counterexample :
    containsChar belBucket squote = false ∧
    containsChar belBucket dquote = false ∧
    parseJson (policyDocumentString ((generatedPolicy "r" belBucket).getD .null)) = none ∧
    policyDocumentString ((generatedPolicy "r" belBucket).getD .null) ≠
      jsonDumps ((generatedPolicy "r" belBucket).getD .null) ∧
    containsChar nbspBucket squote = false ∧
    containsChar nbspBucket dquote = false ∧
    parseJson (policyDocumentString ((generatedPolicy "r" nbspBucket).getD .null)) = none :=
  ⟨rfl, rfl, by rfl, by decide, rfl, rfl, by rfl⟩

/-- C10 witness: mode `r`, an empty listing, and the default bucket name. -/
theorem C10_witness :
    iamEmptyOk.list_policies "Local" = .ok [] ∧
    argsR.access = some "r" ∧
    ∃ d, generatedPolicy "r" argsR.bucket = some d ∧
      policyDocumentString d = replaceChars squote dquote (pyRepr d) ∧
      (confirm_or_create_policy iamEmptyOk argsR Eff.empty).2.calls =
        Eff.empty.calls ++ [Call.listPolicies "Local",
          Call.createPolicy argsR.policy (policyDocumentString d)] ∧
      (safeStr argsR.bucket = true → policyDocumentString d = jsonDumps d) ∧
      parseJson (policyDocumentString ((generatedPolicy "r" "evidence-server-01").getD .null)) =
        some ((generatedPolicy "r" "evidence-server-01").getD .null) ∧
      parseJson (policyDocumentString ((generatedPolicy "r" "a'b").getD .null)) = none :=
  ⟨rfl, rfl,
    C10_document_serialization iamEmptyOk argsR Eff.empty [] "r" rfl (by simp) rfl
      (Or.inl rfl)⟩
